import Mathlib

/-!
Acer Aspire 1 embedded-controller battery driver.

A shallow embedding of `drivers/power/supply/aspire-ec-battery.c`: the bus helper
`acpi_gsb_i2c_read_bytes` and the property callback `aspire_battery_get_property`.

Conventions of the embedding

* a `u8` is a `Fin 256`; a C object is the list of its bytes in address order;
* `int` results are mathematical integers passed through `wrap_int`, the 32-bit
  two's-complement wrap, wherever the C code performs `int` arithmetic;
* the two services the helper obtains from the kernel, `kzalloc` and `i2c_transfer`,
  are inputs of the model (`kernel_io`): whether the allocation succeeded, what
  `i2c_transfer` returned and which bytes the adapter stored in the read buffer;
* every transfer handed to the adapter and every `dev_err` line is recorded in the result;
* an integer division by zero has no result: the callback's outcome is then `none`.
-/

namespace AspireEcBattery

/-! ## Machine integers -/

/-- An unsigned 8-bit quantity. -/
abbrev u8 := Fin 256

/-- Conversion of an unsigned value to `u8` (keeps the low eight bits). -/
def to_u8 (n : Nat) : u8 := ⟨n % 256, Nat.mod_lt n (by decide)⟩

/-- Two's-complement wrap of a mathematical integer into a 32-bit `int`. -/
def wrap_int (x : Int) : Int := (x + 2147483648) % 4294967296 - 2147483648

/-- The cast `(s16)x` of an unsigned value: low sixteen bits read as two's complement. -/
def s16 (x : Nat) : Int :=
  if x % 65536 < 32768 then ((x % 65536 : Nat) : Int) else ((x % 65536 : Nat) : Int) - 65536

/-- C multiplication of two `int` operands. -/
def int_mul (a b : Int) : Int := wrap_int (a * b)

/-- C division of two `int` operands: truncating, and without a result when the
divisor is zero. -/
def int_div (a b : Int) : Option Int :=
  if b = 0 then none else some (wrap_int (Int.tdiv a b))

/-- The macro `BIT(n)`. -/
def BIT (n : Nat) : Nat := 1 <<< n

/-! ## Constants of the driver (lines 8-14) -/

def ACER_FG_STATIC : u8 := 0x08
def ACER_FG_DYNAMIC : u8 := 0x07

def ACER_FG_FLAG_PRESENT : Nat := BIT 0
def ACER_FG_FLAG_FULL : Nat := BIT 1
def ACER_FG_FLAG_DISCHARGING : Nat := BIT 2
def ACER_FG_FLAG_CHARGING : Nat := BIT 3

/-! ## Declarations taken from kernel headers -/

/-- Modelled from the spec: `enum power_supply_property` is declared in
`linux/power_supply.h`, which is not among the sources. The seven kinds the spec
lists are the seven `case` labels of the callback; `other` stands for every
remaining enumerator, all of which reach the `default` label. -/
inductive power_supply_property where
  | POWER_SUPPLY_PROP_STATUS
  | POWER_SUPPLY_PROP_VOLTAGE_NOW
  | POWER_SUPPLY_PROP_VOLTAGE_MAX_DESIGN
  | POWER_SUPPLY_PROP_CURRENT_NOW
  | POWER_SUPPLY_PROP_CHARGE_NOW
  | POWER_SUPPLY_PROP_CHARGE_FULL
  | POWER_SUPPLY_PROP_CAPACITY
  | other (code : Nat)
  deriving DecidableEq, Repr

open power_supply_property

/-- Modelled from the spec: the status codes are enumerators of `linux/power_supply.h`,
which is not among the sources; the spec names the states, the numbers are the
header's enumeration order (UNKNOWN, CHARGING, DISCHARGING, NOT_CHARGING, FULL). -/
def POWER_SUPPLY_STATUS_UNKNOWN : Int := 0
/-- Modelled from the spec: second enumerator of the status enumeration of
`linux/power_supply.h`. -/
def POWER_SUPPLY_STATUS_CHARGING : Int := 1
/-- Modelled from the spec: third enumerator of the status enumeration of
`linux/power_supply.h`. -/
def POWER_SUPPLY_STATUS_DISCHARGING : Int := 2
/-- Modelled from the spec: fifth enumerator of the status enumeration of
`linux/power_supply.h` (the fourth is NOT_CHARGING). -/
def POWER_SUPPLY_STATUS_FULL : Int := 4

/-- Modelled from the spec: the invalid-argument error number of `errno-base.h`. -/
def EINVAL : Int := 22
/-- Modelled from the spec: the out-of-memory error number of `errno-base.h`. -/
def ENOMEM : Int := 12
/-- Modelled from the spec: the read flag of a bus message, from `linux/i2c.h`. -/
def I2C_M_RD : Nat := 0x0001

/-! ## Record layouts (lines 21-42)

Neither structure carries a `packed` attribute, so the members are laid out by the
ordinary C rule: each scalar member is placed at the next multiple of its own size,
and the structure is padded to a multiple of its largest member alignment. -/

/-- A scalar structure member: its name and `sizeof` (which is also its alignment). -/
structure c_member where
  name : String
  size : Nat
  deriving DecidableEq, Repr

/-- The declaration `struct fg_static_data`, member by member. -/
def fg_static_data : List c_member :=
  [ ⟨"unk1", 1⟩, ⟨"flags", 1⟩, ⟨"unk2", 2⟩, ⟨"voltage_design", 2⟩,
    ⟨"capacity_full", 2⟩, ⟨"unk3", 2⟩, ⟨"serial", 2⟩, ⟨"model_id", 1⟩,
    ⟨"vendor_id", 1⟩ ]

/-- The declaration `struct fg_dynamic_data`, member by member. -/
def fg_dynamic_data : List c_member :=
  [ ⟨"unk1", 1⟩, ⟨"flags", 1⟩, ⟨"unk2", 1⟩, ⟨"capacity_now", 2⟩,
    ⟨"voltage_now", 2⟩, ⟨"current_now", 2⟩, ⟨"unk3", 2⟩, ⟨"unk4", 2⟩ ]

/-- Smallest multiple of `a` that is not below `off`. -/
def align_up (off a : Nat) : Nat := (off + a - 1) / a * a

/-- Offset of the member called `name`, scanning the members from offset `off`. -/
def offsetof_from (off : Nat) : List c_member → String → Nat
  | [], _ => off
  | m :: ms, name =>
    if m.name = name then align_up off m.size
    else offsetof_from (align_up off m.size + m.size) ms name

/-- The macro `offsetof(struct, member)`. -/
def offsetof (ms : List c_member) (name : String) : Nat := offsetof_from 0 ms name

/-- End of the last member when the members are laid out from offset `off`. -/
def end_from (off : Nat) : List c_member → Nat
  | [] => off
  | m :: ms => end_from (align_up off m.size + m.size) ms

/-- Alignment of a structure: the largest alignment among its members. -/
def c_alignof (ms : List c_member) : Nat := (ms.map c_member.size).foldl max 1

/-- The operator `sizeof(struct ...)`. -/
def c_sizeof (ms : List c_member) : Nat := align_up (end_from 0 ms) (c_alignof ms)

/-- A single-byte member of an object stored as bytes. -/
def member8 (ms : List c_member) (obj : List u8) (name : String) : u8 :=
  obj.getD (offsetof ms name) 0

/-- The two bytes of a 16-bit member, in address order. -/
def member16 (ms : List c_member) (obj : List u8) (name : String) : u8 × u8 :=
  (obj.getD (offsetof ms name) 0, obj.getD (offsetof ms name + 1) 0)

/-- Value of a `__le16` member: the byte at the lower address is the low byte. -/
def le16_to_cpu (m : u8 × u8) : Nat := m.1.val + 256 * m.2.val

/-- Value of a `__be16` member: the byte at the lower address is the high byte. -/
def be16_to_cpu (m : u8 × u8) : Nat := 256 * m.1.val + m.2.val

/-! ## The bus helper (lines 44-74) -/

/-- The members of `struct i2c_client` the driver reads. -/
structure i2c_client where
  addr : Nat
  flags : Nat
  deriving DecidableEq, Repr

/-- The object `struct aspire_battery` (line 16); the `psy` member is never read. -/
structure aspire_battery where
  client : i2c_client
  deriving DecidableEq, Repr

/-- One `struct i2c_msg` as it is handed to the adapter. -/
structure i2c_msg where
  addr : Nat
  flags : Nat
  len : Nat
  buf : List u8
  deriving DecidableEq, Repr

/-- What `i2c_transfer` did with one submission: its return value (a negative error
number, or the number of messages completed) and the bytes the adapter stored, from
position 0 on, in the buffer of the read message. -/
structure i2c_outcome where
  ret : Int
  rx : List u8
  deriving DecidableEq, Repr

/-- The kernel services consumed by one call of the helper: whether `kzalloc`
returned memory, and the outcome of `i2c_transfer` should the call get that far. -/
structure kernel_io where
  kzalloc_ok : Bool
  xfer : i2c_outcome
  deriving DecidableEq, Repr

/-- The observable result of one call of the helper: the value returned, the caller's
buffer afterwards, the transfers submitted and the diagnostics logged. -/
structure read_result where
  ret : Int
  data : List u8
  xfers : List (List i2c_msg)
  log : List String
  deriving DecidableEq, Repr

/-- A zero-filled object of `n` bytes (`kzalloc`, or the initialiser `= {}`). -/
def zeroed (n : Nat) : List u8 := List.replicate n 0

/-- The read buffer after the transfer: the stored bytes over the zeroed allocation,
never beyond its `len` bytes. -/
def rx_buffer (len : Nat) (rx : List u8) : List u8 := (rx ++ zeroed len).take len

/-- The call `memcpy(dst, src, n)` on byte lists (`n` within both objects). -/
def memcpy (dst src : List u8) (n : Nat) : List u8 := src.take n ++ dst.drop n

/-- The function `acpi_gsb_i2c_read_bytes(client, cmd, data, data_len)`. -/
def acpi_gsb_i2c_read_bytes (client : i2c_client) (cmd : u8) (data : List u8)
    (data_len : u8) (io : kernel_io) : read_result :=
  if !io.kzalloc_ok then
    ⟨-ENOMEM, data, [], []⟩
  else
    let buffer := zeroed data_len.val
    let msgs : List i2c_msg :=
      [ ⟨client.addr, client.flags, 1, [cmd]⟩,
        ⟨client.addr, client.flags ||| I2C_M_RD, data_len.val, buffer⟩ ]
    let ret := io.xfer.ret
    let buffer := rx_buffer data_len.val io.xfer.rx
    if ret < 0 then
      ⟨ret, data, [msgs], ["i2c read failed\n"]⟩
    else
      ⟨ret, memcpy data buffer data_len.val, [msgs], []⟩

/-! ## The property callback (lines 76-126) -/

/-- Outcome of a call that returned: the return value and `val->intval` afterwards. -/
structure propval_out where
  ret : Int
  intval : Int
  deriving DecidableEq, Repr

/-- The observable result of one call of the callback; `out = none` when the call
divided by zero. -/
structure get_property_result where
  out : Option propval_out
  xfers : List (List i2c_msg)
  log : List String
  deriving DecidableEq, Repr

/-- Lines 81 and 84: the zero-initialised `sdat` after the static-record read. -/
def read_sdat (battery : aspire_battery) (io : kernel_io) : read_result :=
  acpi_gsb_i2c_read_bytes battery.client ACER_FG_STATIC (zeroed (c_sizeof fg_static_data))
    (to_u8 (c_sizeof fg_static_data)) io

/-- Lines 82 and 85: the zero-initialised `ddat` after the dynamic-record read. -/
def read_ddat (battery : aspire_battery) (io : kernel_io) : read_result :=
  acpi_gsb_i2c_read_bytes battery.client ACER_FG_DYNAMIC (zeroed (c_sizeof fg_dynamic_data))
    (to_u8 (c_sizeof fg_dynamic_data)) io

/-- The function `aspire_battery_get_property(psy, psp, val)`; `val` is the content of
`val->intval` on entry, `io_static` and `io_dynamic` are the kernel services met by
the first and by the second read. -/
def aspire_battery_get_property (battery : aspire_battery) (psp : power_supply_property)
    (val : Int) (io_static io_dynamic : kernel_io) : get_property_result :=
  let rs := read_sdat battery io_static
  let rd := read_ddat battery io_dynamic
  let sdat := rs.data
  let ddat := rd.data
  let out : Option propval_out :=
    match psp with
    | POWER_SUPPLY_PROP_STATUS =>
      let flags := (member8 fg_dynamic_data ddat "flags").val
      some ⟨0,
        if flags &&& ACER_FG_FLAG_CHARGING ≠ 0 then POWER_SUPPLY_STATUS_CHARGING
        else if flags &&& ACER_FG_FLAG_DISCHARGING ≠ 0 then POWER_SUPPLY_STATUS_DISCHARGING
        else if flags &&& ACER_FG_FLAG_FULL ≠ 0 then POWER_SUPPLY_STATUS_FULL
        else POWER_SUPPLY_STATUS_UNKNOWN⟩
    | POWER_SUPPLY_PROP_VOLTAGE_NOW =>
      some ⟨0, int_mul (be16_to_cpu (member16 fg_dynamic_data ddat "voltage_now")) 1000⟩
    | POWER_SUPPLY_PROP_VOLTAGE_MAX_DESIGN =>
      some ⟨0, int_mul (le16_to_cpu (member16 fg_static_data sdat "voltage_design")) 1000⟩
    | POWER_SUPPLY_PROP_CURRENT_NOW =>
      some ⟨0, int_mul (s16 (be16_to_cpu (member16 fg_dynamic_data ddat "current_now"))) 1000⟩
    | POWER_SUPPLY_PROP_CHARGE_NOW =>
      some ⟨0, int_mul (be16_to_cpu (member16 fg_dynamic_data ddat "capacity_now")) 1000⟩
    | POWER_SUPPLY_PROP_CHARGE_FULL =>
      some ⟨0, int_mul (le16_to_cpu (member16 fg_static_data sdat "capacity_full")) 1000⟩
    | POWER_SUPPLY_PROP_CAPACITY =>
      (int_div (int_mul (be16_to_cpu (member16 fg_dynamic_data ddat "capacity_now")) 100)
        (le16_to_cpu (member16 fg_static_data sdat "capacity_full"))).map
        (fun q => ⟨0, q⟩)
    | other _ => some ⟨-EINVAL, val⟩
  ⟨out, rs.xfers ++ rd.xfers, rs.log ++ rd.log⟩

/-- The table `aspire_battery_props` (lines 128-136). -/
def aspire_battery_props : List power_supply_property :=
  [ POWER_SUPPLY_PROP_STATUS,
    POWER_SUPPLY_PROP_VOLTAGE_NOW,
    POWER_SUPPLY_PROP_VOLTAGE_MAX_DESIGN,
    POWER_SUPPLY_PROP_CURRENT_NOW,
    POWER_SUPPLY_PROP_CHARGE_NOW,
    POWER_SUPPLY_PROP_CHARGE_FULL,
    POWER_SUPPLY_PROP_CAPACITY ]

/-! ## Sample inputs -/

/-- A client at bus address 0x76 with no flags set. -/
def sample_battery : aspire_battery := ⟨⟨0x76, 0⟩⟩

/-- Kernel services of a read that goes through: both messages completed, `rx` stored. -/
def io_ok (rx : List u8) : kernel_io := ⟨true, ⟨2, rx⟩⟩

/-- Kernel services of a read whose transfer fails with error number `e`. -/
def io_fail (e : Int) : kernel_io := ⟨true, ⟨-e, []⟩⟩

/-- Image of a `struct fg_static_data` with the given bytes in `voltage_design` and
`capacity_full` (address order) and fixed filler elsewhere. -/
def static_record (voltage_design capacity_full : u8 × u8) : List u8 :=
  [0, 1, 0, 0, voltage_design.1, voltage_design.2, capacity_full.1, capacity_full.2,
   0, 0, 0x34, 0x12, 7, 9]

/-- Image of a `struct fg_dynamic_data` with the given flags and the given bytes in
`capacity_now`, `voltage_now` and `current_now` (address order), zero elsewhere. -/
def dynamic_record (flags : u8) (capacity_now voltage_now current_now : u8 × u8) :
    List u8 :=
  [0, flags, 0, 0, capacity_now.1, capacity_now.2, voltage_now.1, voltage_now.2,
   current_now.1, current_now.2, 0, 0, 0, 0]

/-- A static record: design voltage bytes `10 27`, full capacity bytes `64 00`. -/
def sample_static : List u8 := static_record (0x10, 0x27) (0x64, 0x00)

/-- A dynamic record: flags `0C`, capacity-now bytes `00 32`, voltage-now bytes
`2E E0`, current-now bytes `FF FF`. -/
def sample_dynamic : List u8 := dynamic_record 0x0C (0x00, 0x32) (0x2E, 0xE0) (0xFF, 0xFF)

/-- An 11-byte dynamic record laid out as the wire protocol of the bus describes it:
flags `08` at 1, capacity-now `00 32` at 3-4, voltage-now `2E E0` at 5-6, current-now
`FF FF` at 7-8. -/
def wire_dynamic : List u8 := [0, 0x08, 0, 0x00, 0x32, 0x2E, 0xE0, 0xFF, 0xFF, 0, 0]

/-- Kernel services of a read whose buffer allocation fails. -/
def io_nomem : kernel_io := ⟨false, ⟨0, []⟩⟩

/-! ## Auxiliary facts -/

theorem wrap_int_eq_self (x : Int) (hlo : -2147483648 ≤ x) (hhi : x < 2147483648) :
    wrap_int x = x := by
  unfold wrap_int
  omega

theorem land_BIT_ne_zero_iff (n i : Nat) : n &&& BIT i ≠ 0 ↔ n.testBit i = true := by
  have hpos : 0 < 2 ^ i := Nat.pos_pow_of_pos i (by decide)
  unfold BIT
  rw [Nat.one_shiftLeft, Nat.and_two_pow]
  cases h : n.testBit i
  · simp
  · simp only [Bool.toNat_true, Nat.one_mul, iff_true]
    omega

theorem sizeof_fg_static_data : c_sizeof fg_static_data = 14 := by decide

theorem sizeof_fg_dynamic_data : c_sizeof fg_dynamic_data = 14 := by decide

theorem getD_zeroed (n i : Nat) : (zeroed n).getD i 0 = 0 := by
  unfold zeroed
  rw [List.getD_eq_getElem?_getD, List.getElem?_replicate]
  split <;> rfl

theorem getD_rx_buffer (len : Nat) (rx : List u8) (i : Nat) (hi : i < len) :
    (rx_buffer len rx).getD i 0 = rx.getD i 0 := by
  unfold rx_buffer
  rw [List.getD_eq_getElem?_getD, List.getElem?_take, if_pos hi, ← List.getD_eq_getElem?_getD]
  by_cases h : i < rx.length
  · exact List.getD_append rx (zeroed len) 0 i h
  · have hle : rx.length ≤ i := Nat.le_of_not_lt h
    rw [List.getD_append_right rx (zeroed len) 0 i hle, getD_zeroed,
      List.getD_eq_default rx 0 hle]

theorem length_rx_buffer (len : Nat) (rx : List u8) : (rx_buffer len rx).length = len := by
  simp [rx_buffer, zeroed]

theorem memcpy_all (dst src : List u8) (n : Nat) (hs : src.length = n) (hd : dst.length = n) :
    memcpy dst src n = src := by
  unfold memcpy
  rw [List.take_of_length_le (by omega), List.drop_of_length_le (by omega), List.append_nil]

/-- The record held after a read whose transfer did not report an error is the
transfer buffer. -/
theorem read_sdat_data_of_ok (battery : aspire_battery) (io : kernel_io)
    (hk : io.kzalloc_ok = true) (hr : 0 ≤ io.xfer.ret) :
    (read_sdat battery io).data = rx_buffer 14 io.xfer.rx := by
  have hlt : ¬ io.xfer.ret < 0 := by omega
  simp only [read_sdat, acpi_gsb_i2c_read_bytes, hk, hlt, sizeof_fg_static_data, to_u8]
  simp only [Bool.not_true, Bool.false_eq_true, if_false]
  exact memcpy_all _ _ 14 (length_rx_buffer 14 _) (by simp [zeroed])

theorem read_ddat_data_of_ok (battery : aspire_battery) (io : kernel_io)
    (hk : io.kzalloc_ok = true) (hr : 0 ≤ io.xfer.ret) :
    (read_ddat battery io).data = rx_buffer 14 io.xfer.rx := by
  have hlt : ¬ io.xfer.ret < 0 := by omega
  simp only [read_ddat, acpi_gsb_i2c_read_bytes, hk, hlt, sizeof_fg_dynamic_data, to_u8]
  simp only [Bool.not_true, Bool.false_eq_true, if_false]
  exact memcpy_all _ _ 14 (length_rx_buffer 14 _) (by simp [zeroed])

/-- The record held after a read that failed is the zero-initialised one. -/
theorem read_sdat_data_of_fail (battery : aspire_battery) (io : kernel_io)
    (h : io.kzalloc_ok = false ∨ io.xfer.ret < 0) :
    (read_sdat battery io).data = zeroed 14 := by
  simp only [read_sdat, acpi_gsb_i2c_read_bytes, sizeof_fg_static_data]
  cases hk : io.kzalloc_ok
  · simp
  · rcases h with h | h
    · rw [hk] at h
      exact Bool.noConfusion h
    · simp [h]

theorem u16_mul_1000 (n : Nat) (h : n < 65536) : int_mul (n : Int) 1000 = 1000 * (n : Int) := by
  unfold int_mul
  rw [wrap_int_eq_self] <;> omega

theorem le16_lt (m : u8 × u8) : le16_to_cpu m < 65536 := by
  have h1 := m.1.isLt
  have h2 := m.2.isLt
  unfold le16_to_cpu
  omega

theorem be16_lt (m : u8 × u8) : be16_to_cpu m < 65536 := by
  have h1 := m.1.isLt
  have h2 := m.2.isLt
  unfold be16_to_cpu
  omega

theorem capacity_arith (N F : Nat) (hN : N < 65536) (hF : F ≠ 0) :
    int_div (int_mul (N : Int) 100) (F : Int) = some (((N * 100 / F : Nat)) : Int) := by
  have hq : N * 100 / F ≤ N * 100 := Nat.div_le_self _ _
  have h0 : (0 : Int) ≤ ((N * 100 / F : Nat) : Int) := Int.ofNat_nonneg _
  have hmul : int_mul (N : Int) 100 = ((N * 100 : Nat) : Int) := by
    unfold int_mul
    rw [wrap_int_eq_self] <;> push_cast <;> omega
  have hF0 : ¬ (F : Int) = 0 := fun h => hF (Int.ofNat_eq_zero.mp h)
  unfold int_div
  rw [if_neg hF0, hmul, ← Int.ofNat_tdiv, wrap_int_eq_self] <;> omega

theorem int_div_eq_none_iff (a : Int) (F : Nat) : int_div a (F : Int) = none ↔ F = 0 := by
  unfold int_div
  constructor
  · intro h
    by_contra hne
    rw [if_neg (fun hh => hne (Int.ofNat_eq_zero.mp hh))] at h
    exact Option.noConfusion h
  · intro h
    subst h
    exact if_pos rfl

theorem other_not_mem_props (code : Nat) : other code ∉ aspire_battery_props := by
  intro h
  simp [aspire_battery_props] at h

/-! ## Decoding of the readings -/

/-- C1: a status query returns 0 and classifies the flags byte `f` of the dynamic
record by priority: CHARGING when bit 3 is set, otherwise DISCHARGING when bit 2 is
set, otherwise FULL when bit 1 is set, otherwise UNKNOWN; so a byte with bits 3 and 2
both set reads CHARGING. -/
theorem status_query_flag_priority (battery : aspire_battery) (val : Int)
    (io_static io_dynamic : kernel_io) (f : u8)
    (hf : member8 fg_dynamic_data (read_ddat battery io_dynamic).data "flags" = f) :
    (aspire_battery_get_property battery POWER_SUPPLY_PROP_STATUS val
        io_static io_dynamic).out
      = some ⟨0,
          if f.val.testBit 3 = true then POWER_SUPPLY_STATUS_CHARGING
          else if f.val.testBit 2 = true then POWER_SUPPLY_STATUS_DISCHARGING
          else if f.val.testBit 1 = true then POWER_SUPPLY_STATUS_FULL
          else POWER_SUPPLY_STATUS_UNKNOWN⟩
    ∧ (f.val.testBit 3 = true → f.val.testBit 2 = true →
        (aspire_battery_get_property battery POWER_SUPPLY_PROP_STATUS val
          io_static io_dynamic).out = some ⟨0, POWER_SUPPLY_STATUS_CHARGING⟩) := by
  have key : (aspire_battery_get_property battery POWER_SUPPLY_PROP_STATUS val
        io_static io_dynamic).out
      = some ⟨0,
          if f.val.testBit 3 = true then POWER_SUPPLY_STATUS_CHARGING
          else if f.val.testBit 2 = true then POWER_SUPPLY_STATUS_DISCHARGING
          else if f.val.testBit 1 = true then POWER_SUPPLY_STATUS_FULL
          else POWER_SUPPLY_STATUS_UNKNOWN⟩ := by
    simp only [aspire_battery_get_property, hf, ACER_FG_FLAG_CHARGING,
      ACER_FG_FLAG_DISCHARGING, ACER_FG_FLAG_FULL, land_BIT_ne_zero_iff]
  refine ⟨key, fun h3 _ => ?_⟩
  rw [key, if_pos h3]

/-- C1, at the flags bytes `0C` (charging and discharging both set) and `02`. -/
theorem status_query_flag_priority_witness :
    (member8 fg_dynamic_data (read_ddat sample_battery (io_ok sample_dynamic)).data "flags"
        = 0x0C
      ∧ (aspire_battery_get_property sample_battery POWER_SUPPLY_PROP_STATUS 0
          (io_ok sample_static) (io_ok sample_dynamic)).out
        = some ⟨0, POWER_SUPPLY_STATUS_CHARGING⟩)
    ∧ (member8 fg_dynamic_data (read_ddat sample_battery
          (io_ok (dynamic_record 0x02 (0, 0) (0, 0) (0, 0)))).data "flags" = 0x02
      ∧ (aspire_battery_get_property sample_battery POWER_SUPPLY_PROP_STATUS 0
          (io_ok sample_static) (io_ok (dynamic_record 0x02 (0, 0) (0, 0) (0, 0)))).out
        = some ⟨0, POWER_SUPPLY_STATUS_FULL⟩) :=
  ⟨⟨by decide,
    (status_query_flag_priority sample_battery 0 (io_ok sample_static)
      (io_ok sample_dynamic) 0x0C (by decide)).2 (by decide) (by decide)⟩,
   ⟨by decide,
    (status_query_flag_priority sample_battery 0 (io_ok sample_static)
      (io_ok (dynamic_record 0x02 (0, 0) (0, 0) (0, 0))) 0x02 (by decide)).1.trans
      (by decide)⟩⟩

/-- C2: when the static record's capacity-full value `F = f0 + 256 * f1` is not zero, a
capacity query returns 0 with the reading `(N * 100) / F` rounded down, where
`N = 256 * n0 + n1` is the dynamic record's capacity-now value; both are the raw
16-bit values. -/
theorem capacity_query_percent (battery : aspire_battery) (val : Int)
    (io_static io_dynamic : kernel_io) (f0 f1 n0 n1 : u8)
    (hF : member16 fg_static_data (read_sdat battery io_static).data "capacity_full"
      = (f0, f1))
    (hN : member16 fg_dynamic_data (read_ddat battery io_dynamic).data "capacity_now"
      = (n0, n1))
    (hne : f0.val + 256 * f1.val ≠ 0) :
    (aspire_battery_get_property battery POWER_SUPPLY_PROP_CAPACITY val
        io_static io_dynamic).out
      = some ⟨0, (((256 * n0.val + n1.val) * 100 / (f0.val + 256 * f1.val) : Nat) : Int)⟩ := by
  have hN16 := be16_lt (n0, n1)
  simp only [be16_to_cpu] at hN16
  simp only [aspire_battery_get_property, hF, hN, be16_to_cpu, le16_to_cpu]
  rw [capacity_arith _ _ hN16 hne]
  rfl

/-- C2, at capacity-now 50 (bytes `00 32`) and capacity-full 100 (bytes `64 00`): the
reading is exactly 50. -/
theorem capacity_query_percent_witness :
    member16 fg_static_data (read_sdat sample_battery (io_ok sample_static)).data
        "capacity_full" = (0x64, 0x00)
    ∧ member16 fg_dynamic_data (read_ddat sample_battery (io_ok sample_dynamic)).data
        "capacity_now" = (0x00, 0x32)
    ∧ (aspire_battery_get_property sample_battery POWER_SUPPLY_PROP_CAPACITY 0
        (io_ok sample_static) (io_ok sample_dynamic)).out = some ⟨0, 50⟩ :=
  ⟨by decide, by decide,
   (capacity_query_percent sample_battery 0 (io_ok sample_static) (io_ok sample_dynamic)
      0x64 0x00 0x00 0x32 (by decide) (by decide) (by decide)).trans (by decide)⟩

/-- C3: a current-now query returns 0 with the reading `1000 * s`, where `s` is the
two's-complement 16-bit reading of `r = 256 * b0 + b1` and `b0`, `b1` are the bytes
of the `current_now` member in address order: `s = r` when `r < 32768` and
`s = r - 65536` otherwise. -/
theorem current_now_query_signed (battery : aspire_battery) (val : Int)
    (io_static io_dynamic : kernel_io) (b0 b1 : u8)
    (hb : member16 fg_dynamic_data (read_ddat battery io_dynamic).data "current_now"
      = (b0, b1)) :
    (aspire_battery_get_property battery POWER_SUPPLY_PROP_CURRENT_NOW val
        io_static io_dynamic).out
      = some ⟨0, 1000 * (if 256 * b0.val + b1.val < 32768
                          then ((256 * b0.val + b1.val : Nat) : Int)
                          else ((256 * b0.val + b1.val : Nat) : Int) - 65536)⟩ := by
  have h0 := b0.isLt
  have h1 := b1.isLt
  have hmod : (256 * b0.val + b1.val) % 65536 = 256 * b0.val + b1.val :=
    Nat.mod_eq_of_lt (by omega)
  simp only [aspire_battery_get_property, hb, be16_to_cpu, s16, hmod, int_mul]
  congr 2
  split
  · rw [wrap_int_eq_self] <;> omega
  · rw [wrap_int_eq_self] <;> omega

/-- C3, at the member bytes `FF FF` (reading -1000) and `80 00` (reading -32768000). -/
theorem current_now_query_signed_witness :
    (member16 fg_dynamic_data (read_ddat sample_battery (io_ok sample_dynamic)).data
        "current_now" = (0xFF, 0xFF)
      ∧ (aspire_battery_get_property sample_battery POWER_SUPPLY_PROP_CURRENT_NOW 0
          (io_ok sample_static) (io_ok sample_dynamic)).out = some ⟨0, -1000⟩)
    ∧ (member16 fg_dynamic_data (read_ddat sample_battery
          (io_ok (dynamic_record 0 (0, 0) (0, 0) (0x80, 0x00)))).data "current_now"
        = (0x80, 0x00)
      ∧ (aspire_battery_get_property sample_battery POWER_SUPPLY_PROP_CURRENT_NOW 0
          (io_ok sample_static)
          (io_ok (dynamic_record 0 (0, 0) (0, 0) (0x80, 0x00)))).out
        = some ⟨0, -32768000⟩) :=
  ⟨⟨by decide,
    (current_now_query_signed sample_battery 0 (io_ok sample_static)
      (io_ok sample_dynamic) 0xFF 0xFF (by decide)).trans (by decide)⟩,
   ⟨by decide,
    (current_now_query_signed sample_battery 0 (io_ok sample_static)
      (io_ok (dynamic_record 0 (0, 0) (0, 0) (0x80, 0x00))) 0x80 0x00 (by decide)).trans
      (by decide)⟩⟩

/-- C4: a voltage-now query returns 0 with the reading `1000 * (256 * b0 + b1)` over
the bytes `b0`, `b1` (address order, which is receipt order) of the `voltage_now`
member, a charge-now query returns the same expression over the bytes of the
`capacity_now` member, and neither reading is negative. When the read went through,
the member bytes are the bytes received at the member's offset. -/
theorem voltage_charge_now_queries (battery : aspire_battery) (val : Int)
    (io_static io_dynamic : kernel_io) (v0 v1 c0 c1 : u8)
    (hv : member16 fg_dynamic_data (read_ddat battery io_dynamic).data "voltage_now"
      = (v0, v1))
    (hc : member16 fg_dynamic_data (read_ddat battery io_dynamic).data "capacity_now"
      = (c0, c1)) :
    (aspire_battery_get_property battery POWER_SUPPLY_PROP_VOLTAGE_NOW val
        io_static io_dynamic).out
      = some ⟨0, 1000 * ((256 * v0.val + v1.val : Nat) : Int)⟩
    ∧ (aspire_battery_get_property battery POWER_SUPPLY_PROP_CHARGE_NOW val
        io_static io_dynamic).out
      = some ⟨0, 1000 * ((256 * c0.val + c1.val : Nat) : Int)⟩
    ∧ (∀ r, (aspire_battery_get_property battery POWER_SUPPLY_PROP_VOLTAGE_NOW val
        io_static io_dynamic).out = some r → 0 ≤ r.intval)
    ∧ (∀ r, (aspire_battery_get_property battery POWER_SUPPLY_PROP_CHARGE_NOW val
        io_static io_dynamic).out = some r → 0 ≤ r.intval)
    ∧ (io_dynamic.kzalloc_ok = true → 0 ≤ io_dynamic.xfer.ret →
        v0 = io_dynamic.xfer.rx.getD (offsetof fg_dynamic_data "voltage_now") 0
        ∧ v1 = io_dynamic.xfer.rx.getD (offsetof fg_dynamic_data "voltage_now" + 1) 0
        ∧ c0 = io_dynamic.xfer.rx.getD (offsetof fg_dynamic_data "capacity_now") 0
        ∧ c1 = io_dynamic.xfer.rx.getD (offsetof fg_dynamic_data "capacity_now" + 1) 0) := by
  have hV : (aspire_battery_get_property battery POWER_SUPPLY_PROP_VOLTAGE_NOW val
        io_static io_dynamic).out
      = some ⟨0, 1000 * ((256 * v0.val + v1.val : Nat) : Int)⟩ := by
    have hlt := be16_lt (v0, v1)
    simp only [aspire_battery_get_property, hv, u16_mul_1000 _ hlt]
    rfl
  have hC : (aspire_battery_get_property battery POWER_SUPPLY_PROP_CHARGE_NOW val
        io_static io_dynamic).out
      = some ⟨0, 1000 * ((256 * c0.val + c1.val : Nat) : Int)⟩ := by
    have hlt := be16_lt (c0, c1)
    simp only [aspire_battery_get_property, hc, u16_mul_1000 _ hlt]
    rfl
  refine ⟨hV, hC, ?_, ?_, ?_⟩
  · intro r hr
    rw [hV] at hr
    cases hr
    show (0 : Int) ≤ 1000 * ((256 * v0.val + v1.val : Nat) : Int)
    omega
  · intro r hr
    rw [hC] at hr
    cases hr
    show (0 : Int) ≤ 1000 * ((256 * c0.val + c1.val : Nat) : Int)
    omega
  · intro hk hret
    rw [read_ddat_data_of_ok battery io_dynamic hk hret] at hv hc
    simp only [member16, Prod.mk.injEq] at hv hc
    have o1 : offsetof fg_dynamic_data "voltage_now" < 14 := by decide
    have o2 : offsetof fg_dynamic_data "voltage_now" + 1 < 14 := by decide
    have o3 : offsetof fg_dynamic_data "capacity_now" < 14 := by decide
    have o4 : offsetof fg_dynamic_data "capacity_now" + 1 < 14 := by decide
    rw [getD_rx_buffer _ _ _ o1, getD_rx_buffer _ _ _ o2] at hv
    rw [getD_rx_buffer _ _ _ o3, getD_rx_buffer _ _ _ o4] at hc
    exact ⟨hv.1.symm, hv.2.symm, hc.1.symm, hc.2.symm⟩

/-- C4, at voltage-now bytes `2E E0` (12000, reading 12000000) and capacity-now bytes
`00 32` (50, reading 50000). -/
theorem voltage_charge_now_queries_witness :
    member16 fg_dynamic_data (read_ddat sample_battery (io_ok sample_dynamic)).data
        "voltage_now" = (0x2E, 0xE0)
    ∧ member16 fg_dynamic_data (read_ddat sample_battery (io_ok sample_dynamic)).data
        "capacity_now" = (0x00, 0x32)
    ∧ (aspire_battery_get_property sample_battery POWER_SUPPLY_PROP_VOLTAGE_NOW 0
        (io_ok sample_static) (io_ok sample_dynamic)).out = some ⟨0, 12000000⟩
    ∧ (aspire_battery_get_property sample_battery POWER_SUPPLY_PROP_CHARGE_NOW 0
        (io_ok sample_static) (io_ok sample_dynamic)).out = some ⟨0, 50000⟩ :=
  ⟨by decide, by decide,
   (voltage_charge_now_queries sample_battery 0 (io_ok sample_static)
      (io_ok sample_dynamic) 0x2E 0xE0 0x00 0x32 (by decide) (by decide)).1.trans
      (by decide),
   (voltage_charge_now_queries sample_battery 0 (io_ok sample_static)
      (io_ok sample_dynamic) 0x2E 0xE0 0x00 0x32 (by decide) (by decide)).2.1.trans
      (by decide)⟩

/-- C5: when the static read went through and the adapter stored the bytes `s`, a
voltage-max-design query returns 0 with `1000 * (s[4] + 256 * s[5])` and a
charge-full query returns 0 with `1000 * (s[6] + 256 * s[7])`. -/
theorem static_queries_little_endian (battery : aspire_battery) (val : Int)
    (io_static io_dynamic : kernel_io) (s : List u8)
    (hk : io_static.kzalloc_ok = true) (hret : 0 ≤ io_static.xfer.ret)
    (hs : io_static.xfer.rx = s) :
    (aspire_battery_get_property battery POWER_SUPPLY_PROP_VOLTAGE_MAX_DESIGN val
        io_static io_dynamic).out
      = some ⟨0, 1000 * (((s.getD 4 0).val + 256 * (s.getD 5 0).val : Nat) : Int)⟩
    ∧ (aspire_battery_get_property battery POWER_SUPPLY_PROP_CHARGE_FULL val
        io_static io_dynamic).out
      = some ⟨0, 1000 * (((s.getD 6 0).val + 256 * (s.getD 7 0).val : Nat) : Int)⟩ := by
  have o1 : offsetof fg_static_data "voltage_design" = 4 := by decide
  have o2 : offsetof fg_static_data "capacity_full" = 6 := by decide
  have hV : member16 fg_static_data (read_sdat battery io_static).data "voltage_design"
      = (s.getD 4 0, s.getD 5 0) := by
    rw [read_sdat_data_of_ok battery io_static hk hret, hs]
    simp only [member16, o1]
    rw [getD_rx_buffer _ _ _ (by decide), getD_rx_buffer _ _ _ (by decide)]
  have hC : member16 fg_static_data (read_sdat battery io_static).data "capacity_full"
      = (s.getD 6 0, s.getD 7 0) := by
    rw [read_sdat_data_of_ok battery io_static hk hret, hs]
    simp only [member16, o2]
    rw [getD_rx_buffer _ _ _ (by decide), getD_rx_buffer _ _ _ (by decide)]
  constructor
  · have hlt := le16_lt (s.getD 4 0, s.getD 5 0)
    simp only [aspire_battery_get_property, hV, u16_mul_1000 _ hlt]
    rfl
  · have hlt := le16_lt (s.getD 6 0, s.getD 7 0)
    simp only [aspire_battery_get_property, hC, u16_mul_1000 _ hlt]
    rfl

/-- C5, at a static record with `s[4] = 10`, `s[5] = 27` (hexadecimal) and
`s[6] = 64`, `s[7] = 00`: design voltage 10000000, full charge 100000. -/
theorem static_queries_little_endian_witness :
    (io_ok sample_static).kzalloc_ok = true ∧ 0 ≤ (io_ok sample_static).xfer.ret
    ∧ (sample_static.getD 4 0 = 0x10 ∧ sample_static.getD 5 0 = 0x27)
    ∧ (aspire_battery_get_property sample_battery POWER_SUPPLY_PROP_VOLTAGE_MAX_DESIGN 0
        (io_ok sample_static) (io_ok sample_dynamic)).out = some ⟨0, 10000000⟩
    ∧ (aspire_battery_get_property sample_battery POWER_SUPPLY_PROP_CHARGE_FULL 0
        (io_ok sample_static) (io_ok sample_dynamic)).out = some ⟨0, 100000⟩ :=
  ⟨by decide, by decide, by decide,
   (static_queries_little_endian sample_battery 0 (io_ok sample_static)
      (io_ok sample_dynamic) sample_static (by decide) (by decide) rfl).1.trans
      (by decide),
   (static_queries_little_endian sample_battery 0 (io_ok sample_static)
      (io_ok sample_dynamic) sample_static (by decide) (by decide) rfl).2.trans
      (by decide)⟩

/-! ## Error paths of the callback -/

/-- C6: the callback returns `-EINVAL` exactly for the kinds outside the seven of
`aspire_battery_props`; it then leaves `val->intval` as it found it; and for each of
the seven kinds (capacity-full not zero in the case of the capacity kind) it
returns 0. -/
theorem get_property_einval_iff_unsupported (battery : aspire_battery) (val : Int)
    (io_static io_dynamic : kernel_io) (k : power_supply_property) :
    ((∃ r, (aspire_battery_get_property battery k val io_static io_dynamic).out = some r
          ∧ r.ret = -EINVAL)
        ↔ k ∉ aspire_battery_props)
    ∧ (k ∉ aspire_battery_props →
        (aspire_battery_get_property battery k val io_static io_dynamic).out
          = some ⟨-EINVAL, val⟩)
    ∧ (k ∈ aspire_battery_props →
        (k = POWER_SUPPLY_PROP_CAPACITY →
          le16_to_cpu (member16 fg_static_data (read_sdat battery io_static).data
            "capacity_full") ≠ 0) →
        ∃ v, (aspire_battery_get_property battery k val io_static io_dynamic).out
          = some ⟨0, v⟩) := by
  have hE : ¬ ((0 : Int) = -EINVAL) := by decide
  cases k with
  | other code =>
    refine ⟨⟨fun _ => other_not_mem_props code, fun _ => ⟨⟨-EINVAL, val⟩, rfl, rfl⟩⟩,
      fun _ => rfl, ?_⟩
    intro hmem
    exact absurd hmem (other_not_mem_props code)
  | POWER_SUPPLY_PROP_CAPACITY =>
    refine ⟨⟨?_, fun h => absurd (by decide) h⟩, fun h => absurd (by decide) h, ?_⟩
    · rintro ⟨r, hr, hret⟩
      simp only [aspire_battery_get_property, Option.map_eq_some'] at hr
      obtain ⟨q, _, hq⟩ := hr
      rw [← hq] at hret
      exact absurd hret hE
    · intro _ hF
      have hF0 : ¬ ((le16_to_cpu (member16 fg_static_data (read_sdat battery io_static).data
          "capacity_full") : Nat) : Int) = 0 := fun h => hF rfl (Int.ofNat_eq_zero.mp h)
      simp only [aspire_battery_get_property, int_div, hF0, if_false, Option.map_some']
      exact ⟨_, rfl⟩
  | _ =>
    refine ⟨⟨?_, fun h => absurd (by decide) h⟩, fun h => absurd (by decide) h, ?_⟩
    · rintro ⟨r, hr, hret⟩
      simp only [aspire_battery_get_property, Option.some.injEq] at hr
      rw [← hr] at hret
      exact absurd hret hE
    · intro _ _
      exact ⟨_, rfl⟩

/-- C6, at an unsupported kind (the output keeps its old content 77) and at the
capacity kind with capacity-full 100. -/
theorem get_property_einval_iff_unsupported_witness :
    (other 99 ∉ aspire_battery_props
      ∧ (aspire_battery_get_property sample_battery (other 99) 77
          (io_ok sample_static) (io_ok sample_dynamic)).out = some ⟨-EINVAL, 77⟩)
    ∧ (POWER_SUPPLY_PROP_CAPACITY ∈ aspire_battery_props
      ∧ le16_to_cpu (member16 fg_static_data
          (read_sdat sample_battery (io_ok sample_static)).data "capacity_full") ≠ 0
      ∧ ∃ v, (aspire_battery_get_property sample_battery POWER_SUPPLY_PROP_CAPACITY 77
          (io_ok sample_static) (io_ok sample_dynamic)).out = some ⟨0, v⟩) :=
  ⟨⟨by decide,
    (get_property_einval_iff_unsupported sample_battery 77 (io_ok sample_static)
      (io_ok sample_dynamic) (other 99)).2.1 (by decide)⟩,
   ⟨by decide, by decide,
    (get_property_einval_iff_unsupported sample_battery 77 (io_ok sample_static)
      (io_ok sample_dynamic) POWER_SUPPLY_PROP_CAPACITY).2.2 (by decide)
      (fun _ => by decide)⟩⟩

/-- C7: a capacity query has no result (it divides by zero) exactly when the static
record's capacity-full value `f0 + 256 * f1` is zero; this is the case whenever the
static read fails, by a failed allocation or by a transfer error, since the record
then keeps its zero initialisation. -/
theorem capacity_query_faults_iff_zero_full (battery : aspire_battery) (val : Int)
    (io_static io_dynamic : kernel_io) (f0 f1 : u8)
    (hF : member16 fg_static_data (read_sdat battery io_static).data "capacity_full"
      = (f0, f1)) :
    ((aspire_battery_get_property battery POWER_SUPPLY_PROP_CAPACITY val
        io_static io_dynamic).out = none ↔ f0.val + 256 * f1.val = 0)
    ∧ (io_static.kzalloc_ok = false ∨ io_static.xfer.ret < 0 →
        (aspire_battery_get_property battery POWER_SUPPLY_PROP_CAPACITY val
          io_static io_dynamic).out = none) := by
  have key : (aspire_battery_get_property battery POWER_SUPPLY_PROP_CAPACITY val
        io_static io_dynamic).out = none ↔ f0.val + 256 * f1.val = 0 := by
    simp only [aspire_battery_get_property, hF, le16_to_cpu, Option.map_eq_none']
    exact int_div_eq_none_iff _ _
  refine ⟨key, fun hfail => key.mpr ?_⟩
  rw [read_sdat_data_of_fail battery io_static hfail] at hF
  simp only [member16, getD_zeroed, Prod.mk.injEq] at hF
  rw [← hF.1, ← hF.2]
  rfl

/-- C7, at a static read whose transfer fails with error 5: the record stays zero and
the capacity query has no result. -/
theorem capacity_query_faults_iff_zero_full_witness :
    member16 fg_static_data (read_sdat sample_battery (io_fail 5)).data "capacity_full"
        = (0, 0)
    ∧ ((io_fail 5).kzalloc_ok = false ∨ (io_fail 5).xfer.ret < 0)
    ∧ (aspire_battery_get_property sample_battery POWER_SUPPLY_PROP_CAPACITY 0
        (io_fail 5) (io_ok sample_dynamic)).out = none :=
  ⟨by decide, by decide,
   (capacity_query_faults_iff_zero_full sample_battery 0 (io_fail 5)
      (io_ok sample_dynamic) 0 0 (by decide)).2 (by decide)⟩

/-! ## The bus helper -/

/-- C8: when the allocation succeeds, the transfer reports no error and the adapter
stored the `n` bytes `r`, the helper leaves `r[i]` at position `i` of the caller's
buffer for every `i < n`, in receipt order; the rest of the buffer keeps its content
and the helper returns the transfer's result. -/
theorem read_bytes_copies_in_receipt_order (client : i2c_client) (cmd : u8)
    (data : List u8) (n : u8) (io : kernel_io) (r : List u8)
    (hk : io.kzalloc_ok = true) (hret : 0 ≤ io.xfer.ret) (hr : io.xfer.rx = r)
    (hlen : r.length = n.val) (hdata : n.val ≤ data.length) :
    (∀ i, i < n.val → (acpi_gsb_i2c_read_bytes client cmd data n io).data[i]? = r[i]?)
    ∧ (acpi_gsb_i2c_read_bytes client cmd data n io).data.take n.val = r
    ∧ (acpi_gsb_i2c_read_bytes client cmd data n io).data.drop n.val = data.drop n.val
    ∧ (acpi_gsb_i2c_read_bytes client cmd data n io).data.length = data.length
    ∧ (acpi_gsb_i2c_read_bytes client cmd data n io).ret = io.xfer.ret := by
  have hlt : ¬ io.xfer.ret < 0 := by omega
  have hbuf : rx_buffer n.val io.xfer.rx = r := by
    unfold rx_buffer
    rw [hr, List.take_append_of_le_length (by omega), List.take_of_length_le (by omega)]
  have hres : (acpi_gsb_i2c_read_bytes client cmd data n io).data = r ++ data.drop n.val := by
    simp only [acpi_gsb_i2c_read_bytes, hk, hlt, Bool.not_true, Bool.false_eq_true, if_false,
      hbuf, memcpy]
    rw [List.take_of_length_le (by omega)]
  have hrt : (acpi_gsb_i2c_read_bytes client cmd data n io).ret = io.xfer.ret := by
    simp only [acpi_gsb_i2c_read_bytes, hk, hlt, Bool.not_true, Bool.false_eq_true, if_false]
  refine ⟨?_, ?_, ?_, ?_, hrt⟩
  · intro i hi
    rw [hres, List.getElem?_append_left (by omega)]
  · rw [hres, ← hlen, List.take_left']
    rfl
  · rw [hres, ← hlen, List.drop_left']
    rfl
  · rw [hres, List.length_append, List.length_drop]
    omega

/-- C8, at a 14-byte read of the static record into a buffer filled with `AA`. -/
theorem read_bytes_copies_in_receipt_order_witness :
    (io_ok sample_static).kzalloc_ok = true ∧ 0 ≤ (io_ok sample_static).xfer.ret
    ∧ sample_static.length = (14 : u8).val
    ∧ (14 : u8).val ≤ (List.replicate 14 (0xAA : u8)).length
    ∧ (acpi_gsb_i2c_read_bytes sample_battery.client ACER_FG_STATIC
        (List.replicate 14 0xAA) 14 (io_ok sample_static)).data.take 14 = sample_static :=
  ⟨by decide, by decide, by decide, by decide,
   (read_bytes_copies_in_receipt_order sample_battery.client ACER_FG_STATIC
      (List.replicate 14 0xAA) 14 (io_ok sample_static) sample_static
      (by decide) (by decide) rfl (by decide) (by decide)).2.1⟩

/-- C9: when the transfer reports a negative result, the helper returns that same
value and the caller's buffer is what it was before the call. -/
theorem read_bytes_transfer_error (client : i2c_client) (cmd : u8) (data : List u8)
    (n : u8) (io : kernel_io)
    (hk : io.kzalloc_ok = true) (herr : io.xfer.ret < 0) :
    (acpi_gsb_i2c_read_bytes client cmd data n io).ret = io.xfer.ret
    ∧ (acpi_gsb_i2c_read_bytes client cmd data n io).data = data := by
  simp only [acpi_gsb_i2c_read_bytes, hk, herr, Bool.not_true, Bool.false_eq_true, if_false,
    if_true, and_self]

/-- C9, at a 16-byte read whose transfer fails with error 5 although the adapter had
already stored a byte. -/
theorem read_bytes_transfer_error_witness :
    (⟨true, ⟨-5, [0x11]⟩⟩ : kernel_io).kzalloc_ok = true
    ∧ (⟨true, ⟨-5, [0x11]⟩⟩ : kernel_io).xfer.ret < 0
    ∧ (acpi_gsb_i2c_read_bytes sample_battery.client ACER_FG_STATIC
        (List.replicate 16 0xAA) 16 ⟨true, ⟨-5, [0x11]⟩⟩).ret = -5
    ∧ (acpi_gsb_i2c_read_bytes sample_battery.client ACER_FG_STATIC
        (List.replicate 16 0xAA) 16 ⟨true, ⟨-5, [0x11]⟩⟩).data = List.replicate 16 0xAA :=
  ⟨by decide, by decide,
   (read_bytes_transfer_error sample_battery.client ACER_FG_STATIC
      (List.replicate 16 0xAA) 16 ⟨true, ⟨-5, [0x11]⟩⟩ (by decide) (by decide)).1,
   (read_bytes_transfer_error sample_battery.client ACER_FG_STATIC
      (List.replicate 16 0xAA) 16 ⟨true, ⟨-5, [0x11]⟩⟩ (by decide) (by decide)).2⟩

/-- C10, refuted as stated: with expected length 16 and a transfer that completes one
of the two messages (result 1, nothing stored), the helper returns 1, which is not
negative, and the caller's buffer, filled with `AA` before, is all zero afterwards. -/
theorem read_bytes_short_transfer_counterexample :
    (acpi_gsb_i2c_read_bytes sample_battery.client ACER_FG_STATIC
        (List.replicate 16 0xAA) 16 ⟨true, ⟨1, []⟩⟩).ret = 1
    ∧ ¬ ((acpi_gsb_i2c_read_bytes sample_battery.client ACER_FG_STATIC
        (List.replicate 16 0xAA) 16 ⟨true, ⟨1, []⟩⟩).ret < 0)
    ∧ (acpi_gsb_i2c_read_bytes sample_battery.client ACER_FG_STATIC
        (List.replicate 16 0xAA) 16 ⟨true, ⟨1, []⟩⟩).data = List.replicate 16 0
    ∧ (acpi_gsb_i2c_read_bytes sample_battery.client ACER_FG_STATIC
        (List.replicate 16 0xAA) 16 ⟨true, ⟨1, []⟩⟩).data ≠ List.replicate 16 0xAA := by
  decide

/-- C10, amended: when the transfer completes fewer than two messages (result 0 or 1),
the helper returns that result, which is not negative, logs nothing, and overwrites the
first `n` bytes of the caller's buffer with the transfer buffer: the stored bytes
followed by zeros, cut at `n`. The rest of the caller's buffer is kept. -/
theorem read_bytes_short_transfer (client : i2c_client) (cmd : u8) (data : List u8)
    (n : u8) (io : kernel_io)
    (hk : io.kzalloc_ok = true) (hpart : io.xfer.ret = 0 ∨ io.xfer.ret = 1) :
    (acpi_gsb_i2c_read_bytes client cmd data n io).ret = io.xfer.ret
    ∧ 0 ≤ (acpi_gsb_i2c_read_bytes client cmd data n io).ret
    ∧ (acpi_gsb_i2c_read_bytes client cmd data n io).log = []
    ∧ (acpi_gsb_i2c_read_bytes client cmd data n io).data.take n.val
        = (io.xfer.rx ++ List.replicate n.val 0).take n.val
    ∧ (acpi_gsb_i2c_read_bytes client cmd data n io).data.drop n.val = data.drop n.val := by
  have hge : 0 ≤ io.xfer.ret := by omega
  have hlt : ¬ io.xfer.ret < 0 := by omega
  have hlen := length_rx_buffer n.val io.xfer.rx
  have hres : (acpi_gsb_i2c_read_bytes client cmd data n io).data
      = rx_buffer n.val io.xfer.rx ++ data.drop n.val := by
    simp only [acpi_gsb_i2c_read_bytes, hk, hlt, Bool.not_true, Bool.false_eq_true, if_false,
      memcpy]
    rw [List.take_of_length_le (by omega)]
  have hrt : (acpi_gsb_i2c_read_bytes client cmd data n io).ret = io.xfer.ret := by
    simp only [acpi_gsb_i2c_read_bytes, hk, hlt, Bool.not_true, Bool.false_eq_true, if_false]
  refine ⟨hrt, by rw [hrt]; exact hge, ?_, ?_, ?_⟩
  · simp only [acpi_gsb_i2c_read_bytes, hk, hlt, Bool.not_true, Bool.false_eq_true, if_false]
  · rw [hres, List.take_left' hlen]
    rfl
  · rw [hres, List.drop_left' hlen]

/-- C10 amended, at expected length 16 and a transfer that completes one message
after the adapter stored the single byte `11`. -/
theorem read_bytes_short_transfer_witness :
    (⟨true, ⟨1, [0x11]⟩⟩ : kernel_io).kzalloc_ok = true
    ∧ ((⟨true, ⟨1, [0x11]⟩⟩ : kernel_io).xfer.ret = 0
      ∨ (⟨true, ⟨1, [0x11]⟩⟩ : kernel_io).xfer.ret = 1)
    ∧ (acpi_gsb_i2c_read_bytes sample_battery.client ACER_FG_STATIC
        (List.replicate 16 0xAA) 16 ⟨true, ⟨1, [0x11]⟩⟩).ret = 1
    ∧ (acpi_gsb_i2c_read_bytes sample_battery.client ACER_FG_STATIC
        (List.replicate 16 0xAA) 16 ⟨true, ⟨1, [0x11]⟩⟩).data.take 16
        = 0x11 :: List.replicate 15 0 :=
  ⟨by decide, by decide,
   (read_bytes_short_transfer sample_battery.client ACER_FG_STATIC
      (List.replicate 16 0xAA) 16 ⟨true, ⟨1, [0x11]⟩⟩ (by decide) (by decide)).1,
   (read_bytes_short_transfer sample_battery.client ACER_FG_STATIC
      (List.replicate 16 0xAA) 16 ⟨true, ⟨1, [0x11]⟩⟩ (by decide)
      (by decide)).2.2.2.1.trans (by decide)⟩

/-! ## Further auxiliary facts -/

theorem read_ddat_data_of_fail (battery : aspire_battery) (io : kernel_io)
    (h : io.kzalloc_ok = false ∨ io.xfer.ret < 0) :
    (read_ddat battery io).data = zeroed 14 := by
  simp only [read_ddat, acpi_gsb_i2c_read_bytes, sizeof_fg_dynamic_data]
  cases hk : io.kzalloc_ok
  · simp
  · rcases h with h | h
    · rw [hk] at h
      exact Bool.noConfusion h
    · simp [h]

theorem read_ddat_ret_of_fail (battery : aspire_battery) (io : kernel_io)
    (h : io.kzalloc_ok = false ∨ io.xfer.ret < 0) :
    (read_ddat battery io).ret < 0 := by
  simp only [read_ddat, acpi_gsb_i2c_read_bytes]
  cases hk : io.kzalloc_ok
  · simp [ENOMEM]
  · rcases h with h | h
    · rw [hk] at h
      exact Bool.noConfusion h
    · simp [h]

theorem rx_buffer_zero (len n : Nat) : rx_buffer len (List.replicate n 0) = zeroed len := by
  apply List.ext_getElem?
  intro i
  have h := getD_rx_buffer len (List.replicate n 0) i
  by_cases hi : i < len
  · have h1 := h hi
    have h2 : (List.replicate n (0 : u8)).getD i 0 = 0 := getD_zeroed n i
    have hlen : i < (rx_buffer len (List.replicate n 0)).length := by
      rw [length_rx_buffer]; exact hi
    have hlen2 : i < (zeroed len).length := by simp [zeroed, hi]
    rw [List.getElem?_eq_getElem hlen, List.getElem?_eq_getElem hlen2]
    rw [List.getD_eq_getElem _ _ hlen, h2] at h1
    simp [zeroed, h1]
  · have hlen : (rx_buffer len (List.replicate n 0)).length ≤ i := by
      rw [length_rx_buffer]; omega
    have hlen2 : (zeroed len).length ≤ i := by simp [zeroed]; omega
    rw [List.getElem?_eq_none hlen, List.getElem?_eq_none hlen2]

theorem get_property_xfers (battery : aspire_battery) (k : power_supply_property)
    (val : Int) (io_static io_dynamic : kernel_io) :
    (aspire_battery_get_property battery k val io_static io_dynamic).xfers
      = (read_sdat battery io_static).xfers ++ (read_ddat battery io_dynamic).xfers := rfl

theorem read_sdat_xfers_of_alloc (battery : aspire_battery) (io : kernel_io)
    (hk : io.kzalloc_ok = true) :
    (read_sdat battery io).xfers
      = [[⟨battery.client.addr, battery.client.flags, 1, [ACER_FG_STATIC]⟩,
          ⟨battery.client.addr, battery.client.flags ||| I2C_M_RD,
            c_sizeof fg_static_data, zeroed (c_sizeof fg_static_data)⟩]] := by
  simp only [read_sdat, acpi_gsb_i2c_read_bytes, hk, sizeof_fg_static_data, to_u8]
  by_cases h : io.xfer.ret < 0 <;> simp [h]

theorem read_ddat_xfers_of_alloc (battery : aspire_battery) (io : kernel_io)
    (hk : io.kzalloc_ok = true) :
    (read_ddat battery io).xfers
      = [[⟨battery.client.addr, battery.client.flags, 1, [ACER_FG_DYNAMIC]⟩,
          ⟨battery.client.addr, battery.client.flags ||| I2C_M_RD,
            c_sizeof fg_dynamic_data, zeroed (c_sizeof fg_dynamic_data)⟩]] := by
  simp only [read_ddat, acpi_gsb_i2c_read_bytes, hk, sizeof_fg_dynamic_data, to_u8]
  by_cases h : io.xfer.ret < 0 <;> simp [h]

theorem read_bytes_xfers_of_nomem (client : i2c_client) (cmd : u8) (data : List u8)
    (n : u8) (io : kernel_io) (hk : io.kzalloc_ok = false) :
    (acpi_gsb_i2c_read_bytes client cmd data n io).xfers = [] := by
  simp [acpi_gsb_i2c_read_bytes, hk]

theorem read_bytes_of_nomem (client : i2c_client) (cmd : u8) (data : List u8)
    (n : u8) (io : kernel_io) (hk : io.kzalloc_ok = false) :
    (acpi_gsb_i2c_read_bytes client cmd data n io).ret = -ENOMEM
    ∧ (acpi_gsb_i2c_read_bytes client cmd data n io).data = data
    ∧ (acpi_gsb_i2c_read_bytes client cmd data n io).log = [] := by
  simp [acpi_gsb_i2c_read_bytes, hk]

/-- The classification computed by the status case, in terms of bit positions. -/
theorem status_out (battery : aspire_battery) (val : Int) (io_static io_dynamic : kernel_io) :
    (aspire_battery_get_property battery POWER_SUPPLY_PROP_STATUS val
        io_static io_dynamic).out
      = some ⟨0,
          if (member8 fg_dynamic_data (read_ddat battery io_dynamic).data "flags").val.testBit 3
              = true then POWER_SUPPLY_STATUS_CHARGING
          else if (member8 fg_dynamic_data (read_ddat battery io_dynamic).data
              "flags").val.testBit 2 = true then POWER_SUPPLY_STATUS_DISCHARGING
          else if (member8 fg_dynamic_data (read_ddat battery io_dynamic).data
              "flags").val.testBit 1 = true then POWER_SUPPLY_STATUS_FULL
          else POWER_SUPPLY_STATUS_UNKNOWN⟩ := by
  simp only [aspire_battery_get_property, ACER_FG_FLAG_CHARGING,
    ACER_FG_FLAG_DISCHARGING, ACER_FG_FLAG_FULL, land_BIT_ne_zero_iff]

/-- The four kinds decoded from the dynamic record. -/
theorem out_of_dynamic_record (b b' : aspire_battery) (v v' : Int)
    (s s' d d' : kernel_io) (k : power_supply_property)
    (hk : k ∈ [POWER_SUPPLY_PROP_STATUS, POWER_SUPPLY_PROP_VOLTAGE_NOW,
      POWER_SUPPLY_PROP_CURRENT_NOW, POWER_SUPPLY_PROP_CHARGE_NOW])
    (hd : (read_ddat b d).data = (read_ddat b' d').data) :
    (aspire_battery_get_property b k v s d).out
      = (aspire_battery_get_property b' k v' s' d').out := by
  simp only [List.mem_cons, List.mem_singleton, List.not_mem_nil, or_false] at hk
  rcases hk with rfl | rfl | rfl | rfl <;> simp only [aspire_battery_get_property, hd]

/-- The two kinds decoded from the static record. -/
theorem out_of_static_record (b b' : aspire_battery) (v v' : Int)
    (s s' d d' : kernel_io) (k : power_supply_property)
    (hk : k ∈ [POWER_SUPPLY_PROP_VOLTAGE_MAX_DESIGN, POWER_SUPPLY_PROP_CHARGE_FULL])
    (hs : (read_sdat b s).data = (read_sdat b' s').data) :
    (aspire_battery_get_property b k v s d).out
      = (aspire_battery_get_property b' k v' s' d').out := by
  simp only [List.mem_cons, List.mem_singleton, List.not_mem_nil, or_false] at hk
  rcases hk with rfl | rfl <;> simp only [aspire_battery_get_property, hs]

/-- Every supported kind is decoded from the two records alone. -/
theorem out_of_records (b b' : aspire_battery) (v v' : Int)
    (s s' d d' : kernel_io) (k : power_supply_property)
    (hk : k ∈ aspire_battery_props)
    (hs : (read_sdat b s).data = (read_sdat b' s').data)
    (hd : (read_ddat b d).data = (read_ddat b' d').data) :
    (aspire_battery_get_property b k v s d).out
      = (aspire_battery_get_property b' k v' s' d').out := by
  cases k with
  | other code => exact absurd hk (other_not_mem_props code)
  | _ => simp only [aspire_battery_get_property, hs, hd]

/-- The capacity reading when the divisor is not zero. -/
theorem capacity_out (battery : aspire_battery) (val : Int) (io_static io_dynamic : kernel_io)
    (hne : le16_to_cpu (member16 fg_static_data (read_sdat battery io_static).data
      "capacity_full") ≠ 0) :
    (aspire_battery_get_property battery POWER_SUPPLY_PROP_CAPACITY val
        io_static io_dynamic).out
      = some ⟨0, ((be16_to_cpu (member16 fg_dynamic_data (read_ddat battery io_dynamic).data
            "capacity_now") * 100
          / le16_to_cpu (member16 fg_static_data (read_sdat battery io_static).data
            "capacity_full") : Nat) : Int)⟩ := by
  simp only [aspire_battery_get_property]
  rw [capacity_arith _ _ (be16_lt _) hne]
  rfl

/-! ## Failed reads and the trace of transfers -/

/-- C11: when the dynamic read fails (its transfer reports a negative result, or its
allocation fails), the helper's negative return is dropped: the status, voltage-now,
current-now and charge-now queries return 0 with the readings UNKNOWN, 0, 0 and 0,
which are the readings obtained when the device delivers a dynamic record of zero
bytes only. -/
theorem dynamic_read_failure_decodes_zero (battery : aspire_battery) (val : Int)
    (io_static io_dynamic : kernel_io) (n : Nat)
    (hfail : io_dynamic.kzalloc_ok = false ∨ io_dynamic.xfer.ret < 0) :
    (read_ddat battery io_dynamic).ret < 0
    ∧ (aspire_battery_get_property battery POWER_SUPPLY_PROP_STATUS val
        io_static io_dynamic).out = some ⟨0, POWER_SUPPLY_STATUS_UNKNOWN⟩
    ∧ (aspire_battery_get_property battery POWER_SUPPLY_PROP_VOLTAGE_NOW val
        io_static io_dynamic).out = some ⟨0, 0⟩
    ∧ (aspire_battery_get_property battery POWER_SUPPLY_PROP_CURRENT_NOW val
        io_static io_dynamic).out = some ⟨0, 0⟩
    ∧ (aspire_battery_get_property battery POWER_SUPPLY_PROP_CHARGE_NOW val
        io_static io_dynamic).out = some ⟨0, 0⟩
    ∧ (∀ k, k ∈ [POWER_SUPPLY_PROP_STATUS, POWER_SUPPLY_PROP_VOLTAGE_NOW,
          POWER_SUPPLY_PROP_CURRENT_NOW, POWER_SUPPLY_PROP_CHARGE_NOW] →
        (aspire_battery_get_property battery k val io_static io_dynamic).out
          = (aspire_battery_get_property battery k val io_static
              (io_ok (List.replicate n 0))).out) := by
  have hd := read_ddat_data_of_fail battery io_dynamic hfail
  have hz : (read_ddat battery (io_ok (List.replicate n 0))).data = zeroed 14 := by
    rw [read_ddat_data_of_ok battery _ rfl (show (0 : Int) ≤ 2 by decide)]
    exact rx_buffer_zero 14 n
  refine ⟨read_ddat_ret_of_fail battery io_dynamic hfail, ?_, ?_, ?_, ?_, ?_⟩
  · simp only [aspire_battery_get_property, hd]
    decide
  · simp only [aspire_battery_get_property, hd]
    decide
  · simp only [aspire_battery_get_property, hd]
    decide
  · simp only [aspire_battery_get_property, hd]
    decide
  · intro k hk
    exact out_of_dynamic_record battery battery val val io_static io_static io_dynamic _ k hk
      (hd.trans hz.symm)

/-- C11, at a dynamic read whose transfer fails with error 5. -/
theorem dynamic_read_failure_decodes_zero_witness :
    ((io_fail 5).kzalloc_ok = false ∨ (io_fail 5).xfer.ret < 0)
    ∧ (read_ddat sample_battery (io_fail 5)).ret = -5
    ∧ (aspire_battery_get_property sample_battery POWER_SUPPLY_PROP_STATUS 77
        (io_ok sample_static) (io_fail 5)).out = some ⟨0, POWER_SUPPLY_STATUS_UNKNOWN⟩
    ∧ (aspire_battery_get_property sample_battery POWER_SUPPLY_PROP_CURRENT_NOW 77
        (io_ok sample_static) (io_fail 5)).out
      = (aspire_battery_get_property sample_battery POWER_SUPPLY_PROP_CURRENT_NOW 77
          (io_ok sample_static) (io_ok (List.replicate 14 0))).out :=
  ⟨by decide, by decide,
   (dynamic_read_failure_decodes_zero sample_battery 77 (io_ok sample_static) (io_fail 5)
      14 (by decide)).2.1,
   (dynamic_read_failure_decodes_zero sample_battery 77 (io_ok sample_static) (io_fail 5)
      14 (by decide)).2.2.2.2.2 POWER_SUPPLY_PROP_CURRENT_NOW (by decide)⟩

/-- C12, refuted as stated: when the allocation of the first read fails, the call
submits a single transfer, the one with command byte 07. -/
theorem get_property_transfers_counterexample :
    (aspire_battery_get_property sample_battery POWER_SUPPLY_PROP_STATUS 0
        io_nomem (io_ok sample_dynamic)).xfers
      = [[⟨0x76, 0, 1, [0x07]⟩, ⟨0x76, 1, 14, List.replicate 14 0⟩]]
    ∧ (aspire_battery_get_property sample_battery POWER_SUPPLY_PROP_STATUS 0
        io_nomem (io_ok sample_dynamic)).xfers.length ≠ 2 := by
  decide

/-- C12, amended: when both buffer allocations succeed, every call, whatever the kind
and whatever the transfers report, submits exactly two transfers: first the command
byte 08 followed by a read of `sizeof(struct fg_static_data)` bytes, then the command
byte 07 followed by a read of `sizeof(struct fg_dynamic_data)` bytes. A read whose
allocation fails returns `-ENOMEM` and submits nothing, for any command byte, buffer
and length; the record it was to fill is then the zero-initialised one of this call,
not one read earlier. -/
theorem get_property_transfers (battery : aspire_battery) (k : power_supply_property)
    (val : Int) (io_static io_dynamic : kernel_io)
    (hs : io_static.kzalloc_ok = true) (hd : io_dynamic.kzalloc_ok = true) :
    (aspire_battery_get_property battery k val io_static io_dynamic).xfers
      = [[⟨battery.client.addr, battery.client.flags, 1, [0x08]⟩,
          ⟨battery.client.addr, battery.client.flags ||| I2C_M_RD,
            c_sizeof fg_static_data, List.replicate (c_sizeof fg_static_data) 0⟩],
         [⟨battery.client.addr, battery.client.flags, 1, [0x07]⟩,
          ⟨battery.client.addr, battery.client.flags ||| I2C_M_RD,
            c_sizeof fg_dynamic_data, List.replicate (c_sizeof fg_dynamic_data) 0⟩]]
    ∧ (∀ (client : i2c_client) (cmd : u8) (data : List u8) (n : u8) (io : kernel_io),
        io.kzalloc_ok = false →
        (acpi_gsb_i2c_read_bytes client cmd data n io).ret = -ENOMEM
        ∧ (acpi_gsb_i2c_read_bytes client cmd data n io).ret < 0
        ∧ (acpi_gsb_i2c_read_bytes client cmd data n io).xfers = []
        ∧ (acpi_gsb_i2c_read_bytes client cmd data n io).data = data)
    ∧ (∀ io, io.kzalloc_ok = false →
        ((read_sdat battery io).ret = -ENOMEM
          ∧ (read_sdat battery io).xfers = []
          ∧ (read_sdat battery io).data = List.replicate (c_sizeof fg_static_data) 0)
        ∧ ((read_ddat battery io).ret = -ENOMEM
          ∧ (read_ddat battery io).xfers = []
          ∧ (read_ddat battery io).data = List.replicate (c_sizeof fg_dynamic_data) 0))
    ∧ (∀ io, io.kzalloc_ok = false →
        (aspire_battery_get_property battery k val io io_dynamic).xfers
          = [[⟨battery.client.addr, battery.client.flags, 1, [0x07]⟩,
              ⟨battery.client.addr, battery.client.flags ||| I2C_M_RD,
                c_sizeof fg_dynamic_data, List.replicate (c_sizeof fg_dynamic_data) 0⟩]]) := by
  refine ⟨?_, fun client cmd data n io hio => ?_, fun io hio => ⟨⟨?_, ?_, ?_⟩, ⟨?_, ?_, ?_⟩⟩,
    fun io hio => ?_⟩
  · rw [get_property_xfers, read_sdat_xfers_of_alloc battery io_static hs,
      read_ddat_xfers_of_alloc battery io_dynamic hd]
    rfl
  · have h := read_bytes_of_nomem client cmd data n io hio
    refine ⟨h.1, ?_, read_bytes_xfers_of_nomem client cmd data n io hio, h.2.1⟩
    rw [h.1]
    decide
  · exact (read_bytes_of_nomem _ _ _ _ io hio).1
  · exact read_bytes_xfers_of_nomem _ _ _ _ io hio
  · exact (read_bytes_of_nomem _ _ _ _ io hio).2.1
  · exact (read_bytes_of_nomem _ _ _ _ io hio).1
  · exact read_bytes_xfers_of_nomem _ _ _ _ io hio
  · exact (read_bytes_of_nomem _ _ _ _ io hio).2.1
  · have h1 : (read_sdat battery io).xfers = [] :=
      read_bytes_xfers_of_nomem _ _ _ _ io hio
    rw [get_property_xfers, h1, read_ddat_xfers_of_alloc battery io_dynamic hd]
    rfl

/-- C12 amended, at an unsupported kind with a failing first transfer, and at a read
whose allocation fails. -/
theorem get_property_transfers_witness :
    (io_fail 5).kzalloc_ok = true ∧ (io_ok sample_dynamic).kzalloc_ok = true
    ∧ (aspire_battery_get_property sample_battery (other 99) 0
        (io_fail 5) (io_ok sample_dynamic)).xfers
      = [[⟨0x76, 0, 1, [0x08]⟩, ⟨0x76, 1, 14, List.replicate 14 0⟩],
         [⟨0x76, 0, 1, [0x07]⟩, ⟨0x76, 1, 14, List.replicate 14 0⟩]]
    ∧ io_nomem.kzalloc_ok = false
    ∧ (read_sdat sample_battery io_nomem).ret = -12
    ∧ (read_sdat sample_battery io_nomem).xfers = [] :=
  ⟨by decide, by decide,
   (get_property_transfers sample_battery (other 99) 0 (io_fail 5) (io_ok sample_dynamic)
      (by decide) (by decide)).1.trans (by decide),
   by decide,
   ((get_property_transfers sample_battery (other 99) 0 (io_fail 5) (io_ok sample_dynamic)
      (by decide) (by decide)).2.2.1 io_nomem (by decide)).1.1.trans (by decide),
   ((get_property_transfers sample_battery (other 99) 0 (io_fail 5) (io_ok sample_dynamic)
      (by decide) (by decide)).2.2.1 io_nomem (by decide)).1.2.1⟩

/-- C13, refuted as stated: a query for an unsupported kind returns `-EINVAL` and has
nonetheless submitted two transfers. -/
theorem unsupported_kind_transfers_counterexample :
    (aspire_battery_get_property sample_battery (other 99) 77
        (io_ok sample_static) (io_ok sample_dynamic)).out = some ⟨-EINVAL, 77⟩
    ∧ (aspire_battery_get_property sample_battery (other 99) 77
        (io_ok sample_static) (io_ok sample_dynamic)).xfers.length = 2
    ∧ (aspire_battery_get_property sample_battery (other 99) 77
        (io_ok sample_static) (io_ok sample_dynamic)).xfers ≠ [] := by
  decide

/-- C13, amended: for a kind outside the seven supported ones the callback returns
`-EINVAL` after both reads have been made: the transfers submitted are those of a query
for any other kind, two of them (never none) when both allocations succeed. -/
theorem unsupported_kind_transfers (battery : aspire_battery) (k : power_supply_property)
    (val : Int) (io_static io_dynamic : kernel_io)
    (hk : k ∉ aspire_battery_props) :
    (aspire_battery_get_property battery k val io_static io_dynamic).out
      = some ⟨-EINVAL, val⟩
    ∧ (∀ k', (aspire_battery_get_property battery k val io_static io_dynamic).xfers
        = (aspire_battery_get_property battery k' val io_static io_dynamic).xfers)
    ∧ (io_static.kzalloc_ok = true → io_dynamic.kzalloc_ok = true →
        (aspire_battery_get_property battery k val io_static io_dynamic).xfers.length = 2
        ∧ (aspire_battery_get_property battery k val io_static io_dynamic).xfers ≠ []) := by
  refine ⟨?_, fun k' => rfl, fun hs hd => ?_⟩
  · cases k with
    | other code => rfl
    | _ => exact absurd (by decide) hk
  · rw [get_property_xfers, read_sdat_xfers_of_alloc battery io_static hs,
      read_ddat_xfers_of_alloc battery io_dynamic hd]
    exact ⟨rfl, fun h => List.noConfusion h⟩

/-- C13 amended, at the unsupported kind 99 with both reads going through. -/
theorem unsupported_kind_transfers_witness :
    other 99 ∉ aspire_battery_props
    ∧ (io_ok sample_static).kzalloc_ok = true ∧ (io_ok sample_dynamic).kzalloc_ok = true
    ∧ (aspire_battery_get_property sample_battery (other 99) 77
        (io_ok sample_static) (io_ok sample_dynamic)).out = some ⟨-EINVAL, 77⟩
    ∧ (aspire_battery_get_property sample_battery (other 99) 77
        (io_ok sample_static) (io_ok sample_dynamic)).xfers.length = 2 :=
  ⟨by decide, by decide, by decide,
   (unsupported_kind_transfers sample_battery (other 99) 77 (io_ok sample_static)
      (io_ok sample_dynamic) (by decide)).1,
   ((unsupported_kind_transfers sample_battery (other 99) 77 (io_ok sample_static)
      (io_ok sample_dynamic) (by decide)).2.2 (by decide) (by decide)).1⟩

/-! ## Record sizes and member offsets -/

/-- C14, refuted as stated: both reads ask for 14 bytes, not for 16 and 11; the size
of `struct fg_static_data` is not 16 and that of `struct fg_dynamic_data` is not 11.
The members of the latter alone take 13 bytes, so no layout brings it down to 11. -/
theorem read_lengths_counterexample :
    (aspire_battery_get_property sample_battery POWER_SUPPLY_PROP_STATUS 0
        (io_ok sample_static) (io_ok sample_dynamic)).xfers.map
        (fun t => t.map i2c_msg.len) = [[1, 14], [1, 14]]
    ∧ (aspire_battery_get_property sample_battery POWER_SUPPLY_PROP_STATUS 0
        (io_ok sample_static) (io_ok sample_dynamic)).xfers.map
        (fun t => t.map i2c_msg.len) ≠ [[1, 16], [1, 11]]
    ∧ c_sizeof fg_static_data ≠ 16
    ∧ c_sizeof fg_dynamic_data ≠ 11
    ∧ (fg_static_data.map c_member.size).sum = 14
    ∧ (fg_dynamic_data.map c_member.size).sum = 13 := by
  decide

/-- C14, amended: the byte count of each read is the size of the structure it fills,
and both sizes are 14: when the allocations succeed, the transfer with command byte 08
reads `sizeof(struct fg_static_data) = 14` bytes and the one with command byte 07
reads `sizeof(struct fg_dynamic_data) = 14` bytes (13 bytes of members and one byte
of padding); the `u8` length parameter does not truncate either value. -/
theorem read_lengths (battery : aspire_battery) (k : power_supply_property)
    (val : Int) (io_static io_dynamic : kernel_io)
    (hs : io_static.kzalloc_ok = true) (hd : io_dynamic.kzalloc_ok = true) :
    (aspire_battery_get_property battery k val io_static io_dynamic).xfers.map
        (fun t => t.map i2c_msg.len)
      = [[1, c_sizeof fg_static_data], [1, c_sizeof fg_dynamic_data]]
    ∧ (aspire_battery_get_property battery k val io_static io_dynamic).xfers.map
        (fun t => (t.head?).map i2c_msg.buf) = [some [0x08], some [0x07]]
    ∧ c_sizeof fg_static_data = 14
    ∧ c_sizeof fg_dynamic_data = 14
    ∧ (to_u8 (c_sizeof fg_static_data)).val = c_sizeof fg_static_data
    ∧ (to_u8 (c_sizeof fg_dynamic_data)).val = c_sizeof fg_dynamic_data
    ∧ (read_sdat battery io_static).data.length = 14
    ∧ (read_ddat battery io_dynamic).data.length = 14 := by
  have hx : (aspire_battery_get_property battery k val io_static io_dynamic).xfers
      = [[⟨battery.client.addr, battery.client.flags, 1, [ACER_FG_STATIC]⟩,
          ⟨battery.client.addr, battery.client.flags ||| I2C_M_RD,
            c_sizeof fg_static_data, zeroed (c_sizeof fg_static_data)⟩],
         [⟨battery.client.addr, battery.client.flags, 1, [ACER_FG_DYNAMIC]⟩,
          ⟨battery.client.addr, battery.client.flags ||| I2C_M_RD,
            c_sizeof fg_dynamic_data, zeroed (c_sizeof fg_dynamic_data)⟩]] := by
    rw [get_property_xfers, read_sdat_xfers_of_alloc battery io_static hs,
      read_ddat_xfers_of_alloc battery io_dynamic hd]
    rfl
  have hls : (read_sdat battery io_static).data.length = 14 := by
    by_cases h : io_static.xfer.ret < 0
    · rw [read_sdat_data_of_fail battery io_static (Or.inr h)]
      rfl
    · rw [read_sdat_data_of_ok battery io_static hs (by omega)]
      exact length_rx_buffer 14 _
  have hld : (read_ddat battery io_dynamic).data.length = 14 := by
    by_cases h : io_dynamic.xfer.ret < 0
    · rw [read_ddat_data_of_fail battery io_dynamic (Or.inr h)]
      rfl
    · rw [read_ddat_data_of_ok battery io_dynamic hd (by omega)]
      exact length_rx_buffer 14 _
  refine ⟨?_, ?_, sizeof_fg_static_data, sizeof_fg_dynamic_data, by decide, by decide,
    hls, hld⟩
  · rw [hx]
    rfl
  · rw [hx]
    rfl

/-- C14 amended, at the sample records. -/
theorem read_lengths_witness :
    (io_ok sample_static).kzalloc_ok = true ∧ (io_ok sample_dynamic).kzalloc_ok = true
    ∧ (aspire_battery_get_property sample_battery POWER_SUPPLY_PROP_CAPACITY 0
        (io_ok sample_static) (io_ok sample_dynamic)).xfers.map
        (fun t => t.map i2c_msg.len) = [[1, 14], [1, 14]] :=
  ⟨by decide, by decide,
   (read_lengths sample_battery POWER_SUPPLY_PROP_CAPACITY 0 (io_ok sample_static)
      (io_ok sample_dynamic) (by decide) (by decide)).1.trans (by decide)⟩

/-- C15, refuted as stated: for the record `wire_dynamic`, whose bytes 3-4, 5-6 and
7-8 hold 50, 12000 and -1, the charge-now, voltage-now and current-now readings are
12846000, 57599000 and -256000, not the values 50000, 12000000 and -1000 that offsets
3, 5 and 7 would give; `capacity_now` is at offset 4, not 3. -/
theorem dynamic_offsets_counterexample :
    (aspire_battery_get_property sample_battery POWER_SUPPLY_PROP_CHARGE_NOW 0
        (io_ok sample_static) (io_ok wire_dynamic)).out = some ⟨0, 12846000⟩
    ∧ 1000 * (256 * ((wire_dynamic.getD 3 0).val : Int) + (wire_dynamic.getD 4 0).val)
        = 50000
    ∧ (aspire_battery_get_property sample_battery POWER_SUPPLY_PROP_VOLTAGE_NOW 0
        (io_ok sample_static) (io_ok wire_dynamic)).out = some ⟨0, 57599000⟩
    ∧ 1000 * (256 * ((wire_dynamic.getD 5 0).val : Int) + (wire_dynamic.getD 6 0).val)
        = 12000000
    ∧ (aspire_battery_get_property sample_battery POWER_SUPPLY_PROP_CURRENT_NOW 0
        (io_ok sample_static) (io_ok wire_dynamic)).out = some ⟨0, -256000⟩
    ∧ 1000 * s16 (256 * (wire_dynamic.getD 7 0).val + (wire_dynamic.getD 8 0).val)
        = -1000
    ∧ offsetof fg_dynamic_data "capacity_now" ≠ 3 := by
  decide

/-- C15, amended: for every dynamic record `d` delivered by the device, the decoder
reads the flags at `d[1]`, charge-now as `1000 * (256 * d[4] + d[5])`, voltage-now as
`1000 * (256 * d[6] + d[7])` and current-now as 1000 times the signed 16-bit reading
of `256 * d[8] + d[9]`: the members `capacity_now`, `voltage_now` and `current_now`
sit at offsets 4, 6 and 8, one padding byte following the three single-byte
members. -/
theorem dynamic_offsets (battery : aspire_battery) (val : Int)
    (io_static io_dynamic : kernel_io) (d : List u8)
    (hk : io_dynamic.kzalloc_ok = true) (hret : 0 ≤ io_dynamic.xfer.ret)
    (hd : io_dynamic.xfer.rx = d) :
    member8 fg_dynamic_data (read_ddat battery io_dynamic).data "flags" = d.getD 1 0
    ∧ (aspire_battery_get_property battery POWER_SUPPLY_PROP_CHARGE_NOW val
        io_static io_dynamic).out
      = some ⟨0, 1000 * ((256 * (d.getD 4 0).val + (d.getD 5 0).val : Nat) : Int)⟩
    ∧ (aspire_battery_get_property battery POWER_SUPPLY_PROP_VOLTAGE_NOW val
        io_static io_dynamic).out
      = some ⟨0, 1000 * ((256 * (d.getD 6 0).val + (d.getD 7 0).val : Nat) : Int)⟩
    ∧ (aspire_battery_get_property battery POWER_SUPPLY_PROP_CURRENT_NOW val
        io_static io_dynamic).out
      = some ⟨0, 1000 *
          (if 256 * (d.getD 8 0).val + (d.getD 9 0).val < 32768
            then ((256 * (d.getD 8 0).val + (d.getD 9 0).val : Nat) : Int)
            else ((256 * (d.getD 8 0).val + (d.getD 9 0).val : Nat) : Int) - 65536)⟩
    ∧ offsetof fg_dynamic_data "flags" = 1
    ∧ offsetof fg_dynamic_data "capacity_now" = 4
    ∧ offsetof fg_dynamic_data "voltage_now" = 6
    ∧ offsetof fg_dynamic_data "current_now" = 8 := by
  have o0 : offsetof fg_dynamic_data "flags" = 1 := by decide
  have o1 : offsetof fg_dynamic_data "capacity_now" = 4 := by decide
  have o2 : offsetof fg_dynamic_data "voltage_now" = 6 := by decide
  have o3 : offsetof fg_dynamic_data "current_now" = 8 := by decide
  have hdata := read_ddat_data_of_ok battery io_dynamic hk hret
  rw [hd] at hdata
  have hF : member8 fg_dynamic_data (read_ddat battery io_dynamic).data "flags"
      = d.getD 1 0 := by
    rw [hdata]
    simp only [member8, o0]
    exact getD_rx_buffer _ _ _ (by decide)
  have hC : member16 fg_dynamic_data (read_ddat battery io_dynamic).data "capacity_now"
      = (d.getD 4 0, d.getD 5 0) := by
    rw [hdata]
    simp only [member16, o1]
    rw [getD_rx_buffer _ _ _ (by decide), getD_rx_buffer _ _ _ (by decide)]
  have hV : member16 fg_dynamic_data (read_ddat battery io_dynamic).data "voltage_now"
      = (d.getD 6 0, d.getD 7 0) := by
    rw [hdata]
    simp only [member16, o2]
    rw [getD_rx_buffer _ _ _ (by decide), getD_rx_buffer _ _ _ (by decide)]
  have hI : member16 fg_dynamic_data (read_ddat battery io_dynamic).data "current_now"
      = (d.getD 8 0, d.getD 9 0) := by
    rw [hdata]
    simp only [member16, o3]
    rw [getD_rx_buffer _ _ _ (by decide), getD_rx_buffer _ _ _ (by decide)]
  refine ⟨hF, ?_, ?_, ?_, o0, o1, o2, o3⟩
  · have hlt := be16_lt (d.getD 4 0, d.getD 5 0)
    simp only [aspire_battery_get_property, hC, u16_mul_1000 _ hlt]
    rfl
  · have hlt := be16_lt (d.getD 6 0, d.getD 7 0)
    simp only [aspire_battery_get_property, hV, u16_mul_1000 _ hlt]
    rfl
  · have h0 := (d.getD 8 0).isLt
    have h1 := (d.getD 9 0).isLt
    have hmod : (256 * (d.getD 8 0).val + (d.getD 9 0).val) % 65536
        = 256 * (d.getD 8 0).val + (d.getD 9 0).val := Nat.mod_eq_of_lt (by omega)
    simp only [aspire_battery_get_property, hI, be16_to_cpu, s16, hmod, int_mul]
    congr 2
    split
    · rw [wrap_int_eq_self] <;> omega
    · rw [wrap_int_eq_self] <;> omega

/-- C15 amended, at the record `wire_dynamic`: the charge-now reading is made of its
bytes 4 and 5. -/
theorem dynamic_offsets_witness :
    (io_ok wire_dynamic).kzalloc_ok = true ∧ 0 ≤ (io_ok wire_dynamic).xfer.ret
    ∧ (wire_dynamic.getD 4 0 = 0x32 ∧ wire_dynamic.getD 5 0 = 0x2E)
    ∧ (aspire_battery_get_property sample_battery POWER_SUPPLY_PROP_CHARGE_NOW 0
        (io_ok sample_static) (io_ok wire_dynamic)).out = some ⟨0, 12846000⟩ :=
  ⟨by decide, by decide, by decide,
   (dynamic_offsets sample_battery 0 (io_ok sample_static) (io_ok wire_dynamic)
      wire_dynamic (by decide) (by decide) rfl).2.1.trans (by decide)⟩

/-! ## Dependence of the result on its inputs -/

/-- C16: the result is a function of the requested kind and of what the two reads left
in the records (the return values of the reads are not even looked at): two calls for
the same kind whose reads produce the same bytes return the same value, and for each
of the seven supported kinds the same reading, whatever `val->intval` held on entry
and whichever client is used. For a kind outside the seven both calls return `-EINVAL`
and leave the output as they found it. -/
theorem get_property_deterministic (b b' : aspire_battery) (k : power_supply_property)
    (v v' : Int) (s s' d d' : kernel_io)
    (hs : (read_sdat b s).data = (read_sdat b' s').data)
    (hd : (read_ddat b d).data = (read_ddat b' d').data) :
    ((aspire_battery_get_property b k v s d).out.map propval_out.ret
      = (aspire_battery_get_property b' k v' s' d').out.map propval_out.ret)
    ∧ (k ∈ aspire_battery_props →
        (aspire_battery_get_property b k v s d).out
          = (aspire_battery_get_property b' k v' s' d').out)
    ∧ (k ∉ aspire_battery_props →
        (aspire_battery_get_property b k v s d).out = some ⟨-EINVAL, v⟩
        ∧ (aspire_battery_get_property b' k v' s' d').out = some ⟨-EINVAL, v'⟩) := by
  refine ⟨?_, fun hk => out_of_records b b' v v' s s' d d' k hk hs hd, ?_⟩
  · cases k with
    | other code => rfl
    | _ => exact congrArg _ (out_of_records b b' v v' s s' d d' _ (by decide) hs hd)
  · intro hk
    cases k with
    | other code => exact ⟨rfl, rfl⟩
    | _ => exact absurd (by decide) hk

/-- C16, at two current-now queries whose reads leave the same bytes (the static
read fails in both, the dynamic read delivers the same record), the second with
another content of the output on entry. -/
theorem get_property_deterministic_witness :
    (read_sdat sample_battery (io_fail 5)).data = (read_sdat sample_battery io_nomem).data
    ∧ (read_ddat sample_battery (io_ok sample_dynamic)).data
        = (read_ddat sample_battery ⟨true, ⟨0, sample_dynamic⟩⟩).data
    ∧ POWER_SUPPLY_PROP_CURRENT_NOW ∈ aspire_battery_props
    ∧ (aspire_battery_get_property sample_battery POWER_SUPPLY_PROP_CURRENT_NOW 0
        (io_fail 5) (io_ok sample_dynamic)).out
      = (aspire_battery_get_property sample_battery POWER_SUPPLY_PROP_CURRENT_NOW 12000000
          io_nomem ⟨true, ⟨0, sample_dynamic⟩⟩).out :=
  ⟨by decide, by decide, by decide,
   (get_property_deterministic sample_battery sample_battery
      POWER_SUPPLY_PROP_CURRENT_NOW 0 12000000 (io_fail 5) io_nomem
      (io_ok sample_dynamic) ⟨true, ⟨0, sample_dynamic⟩⟩ (by decide) (by decide)).2.1
      (by decide)⟩

/-- C17: the status, voltage-now, current-now and charge-now results are the same for
any two outcomes of the static read; the voltage-max-design and charge-full results
are the same for any two outcomes of the dynamic read; and two dynamic records whose
flags bytes agree on bits 1, 2 and 3 give the same status, whatever bit 0 and
bits 4-7 are. -/
theorem dynamic_static_independence (battery : aspire_battery) (val : Int)
    (s s' d d' : kernel_io) :
    (∀ k, k ∈ [POWER_SUPPLY_PROP_STATUS, POWER_SUPPLY_PROP_VOLTAGE_NOW,
          POWER_SUPPLY_PROP_CURRENT_NOW, POWER_SUPPLY_PROP_CHARGE_NOW] →
        (aspire_battery_get_property battery k val s d).out
          = (aspire_battery_get_property battery k val s' d).out)
    ∧ (∀ k, k ∈ [POWER_SUPPLY_PROP_VOLTAGE_MAX_DESIGN, POWER_SUPPLY_PROP_CHARGE_FULL] →
        (aspire_battery_get_property battery k val s d).out
          = (aspire_battery_get_property battery k val s d').out)
    ∧ ((member8 fg_dynamic_data (read_ddat battery d).data "flags").val.testBit 1
          = (member8 fg_dynamic_data (read_ddat battery d').data "flags").val.testBit 1 →
        (member8 fg_dynamic_data (read_ddat battery d).data "flags").val.testBit 2
          = (member8 fg_dynamic_data (read_ddat battery d').data "flags").val.testBit 2 →
        (member8 fg_dynamic_data (read_ddat battery d).data "flags").val.testBit 3
          = (member8 fg_dynamic_data (read_ddat battery d').data "flags").val.testBit 3 →
        (aspire_battery_get_property battery POWER_SUPPLY_PROP_STATUS val s d).out
          = (aspire_battery_get_property battery POWER_SUPPLY_PROP_STATUS val s' d').out) := by
  refine ⟨fun k hk => out_of_dynamic_record battery battery val val s s' d d k hk rfl,
    fun k hk => out_of_static_record battery battery val val s s d d' k hk rfl, ?_⟩
  intro h1 h2 h3
  rw [status_out, status_out, h1, h2, h3]

/-- C17, at a failed and a successful static read, and at the flags bytes `0C` and
`FD`, which differ in bit 0 and in bits 4-7 only. -/
theorem dynamic_static_independence_witness :
    (aspire_battery_get_property sample_battery POWER_SUPPLY_PROP_VOLTAGE_NOW 0
        (io_fail 5) (io_ok sample_dynamic)).out
      = (aspire_battery_get_property sample_battery POWER_SUPPLY_PROP_VOLTAGE_NOW 0
          (io_ok sample_static) (io_ok sample_dynamic)).out
    ∧ (aspire_battery_get_property sample_battery POWER_SUPPLY_PROP_STATUS 0
        (io_fail 5) (io_ok sample_dynamic)).out
      = (aspire_battery_get_property sample_battery POWER_SUPPLY_PROP_STATUS 0
          (io_ok sample_static) (io_ok (dynamic_record 0xFD (0, 0) (0, 0) (0, 0)))).out :=
  ⟨(dynamic_static_independence sample_battery 0 (io_fail 5) (io_ok sample_static)
      (io_ok sample_dynamic) (io_ok sample_dynamic)).1 POWER_SUPPLY_PROP_VOLTAGE_NOW
      (by decide),
   (dynamic_static_independence sample_battery 0 (io_fail 5) (io_ok sample_static)
      (io_ok sample_dynamic) (io_ok (dynamic_record 0xFD (0, 0) (0, 0) (0, 0)))).2.2
      (by decide) (by decide) (by decide)⟩

/-! ## Ranges of the readings -/

/-- C18: with `V`, `C`, `I` the big-endian values of the dynamic members
`voltage_now`, `capacity_now`, `current_now` and `D`, `F` the little-endian values of
the static members `voltage_design`, `capacity_full`, every reading is the exact
integer result: voltage-now, voltage-max-design, charge-now and charge-full are
`1000 * V`, `1000 * D`, `1000 * C`, `1000 * F`, within 0 and 65535000; current-now is
1000 times the signed reading of `I`, within -32768000 and 32767000; and when `F` is
not zero the product `C * 100` and the capacity reading `C * 100 / F` are exact and
within 0 and 6553500. -/
theorem readings_fit_int (battery : aspire_battery) (val : Int)
    (io_static io_dynamic : kernel_io) (V C I D F : Nat)
    (hV : be16_to_cpu (member16 fg_dynamic_data (read_ddat battery io_dynamic).data
      "voltage_now") = V)
    (hC : be16_to_cpu (member16 fg_dynamic_data (read_ddat battery io_dynamic).data
      "capacity_now") = C)
    (hI : be16_to_cpu (member16 fg_dynamic_data (read_ddat battery io_dynamic).data
      "current_now") = I)
    (hD : le16_to_cpu (member16 fg_static_data (read_sdat battery io_static).data
      "voltage_design") = D)
    (hF : le16_to_cpu (member16 fg_static_data (read_sdat battery io_static).data
      "capacity_full") = F) :
    ((aspire_battery_get_property battery POWER_SUPPLY_PROP_VOLTAGE_NOW val
        io_static io_dynamic).out = some ⟨0, 1000 * (V : Int)⟩
      ∧ 0 ≤ 1000 * (V : Int) ∧ 1000 * (V : Int) ≤ 65535000)
    ∧ ((aspire_battery_get_property battery POWER_SUPPLY_PROP_VOLTAGE_MAX_DESIGN val
        io_static io_dynamic).out = some ⟨0, 1000 * (D : Int)⟩
      ∧ 0 ≤ 1000 * (D : Int) ∧ 1000 * (D : Int) ≤ 65535000)
    ∧ ((aspire_battery_get_property battery POWER_SUPPLY_PROP_CHARGE_NOW val
        io_static io_dynamic).out = some ⟨0, 1000 * (C : Int)⟩
      ∧ 0 ≤ 1000 * (C : Int) ∧ 1000 * (C : Int) ≤ 65535000)
    ∧ ((aspire_battery_get_property battery POWER_SUPPLY_PROP_CHARGE_FULL val
        io_static io_dynamic).out = some ⟨0, 1000 * (F : Int)⟩
      ∧ 0 ≤ 1000 * (F : Int) ∧ 1000 * (F : Int) ≤ 65535000)
    ∧ ((aspire_battery_get_property battery POWER_SUPPLY_PROP_CURRENT_NOW val
        io_static io_dynamic).out
        = some ⟨0, 1000 * (if I < 32768 then (I : Int) else (I : Int) - 65536)⟩
      ∧ -32768000 ≤ 1000 * (if I < 32768 then (I : Int) else (I : Int) - 65536)
      ∧ 1000 * (if I < 32768 then (I : Int) else (I : Int) - 65536) ≤ 32767000)
    ∧ (F ≠ 0 →
        int_mul (C : Int) 100 = (C : Int) * 100
        ∧ 0 ≤ (C : Int) * 100 ∧ (C : Int) * 100 ≤ 6553500
        ∧ (aspire_battery_get_property battery POWER_SUPPLY_PROP_CAPACITY val
            io_static io_dynamic).out = some ⟨0, ((C * 100 / F : Nat) : Int)⟩
        ∧ 0 ≤ ((C * 100 / F : Nat) : Int) ∧ ((C * 100 / F : Nat) : Int) ≤ 6553500) := by
  have hVlt : V < 65536 := hV ▸ be16_lt _
  have hClt : C < 65536 := hC ▸ be16_lt _
  have hIlt : I < 65536 := hI ▸ be16_lt _
  have hDlt : D < 65536 := hD ▸ le16_lt _
  have hFlt : F < 65536 := hF ▸ le16_lt _
  refine ⟨⟨?_, by omega, by omega⟩, ⟨?_, by omega, by omega⟩, ⟨?_, by omega, by omega⟩,
    ⟨?_, by omega, by omega⟩, ⟨?_, ?_, ?_⟩, ?_⟩
  · simp only [aspire_battery_get_property, hV, u16_mul_1000 _ hVlt]
  · simp only [aspire_battery_get_property, hD, u16_mul_1000 _ hDlt]
  · simp only [aspire_battery_get_property, hC, u16_mul_1000 _ hClt]
  · simp only [aspire_battery_get_property, hF, u16_mul_1000 _ hFlt]
  · have hmod : I % 65536 = I := Nat.mod_eq_of_lt hIlt
    simp only [aspire_battery_get_property, hI, s16, hmod, int_mul]
    congr 2
    split
    · rw [wrap_int_eq_self] <;> omega
    · rw [wrap_int_eq_self] <;> omega
  · split <;> omega
  · split <;> omega
  · intro hne
    have hq : C * 100 / F ≤ C * 100 := Nat.div_le_self _ _
    have h0 : (0 : Int) ≤ ((C * 100 / F : Nat) : Int) := Int.ofNat_nonneg _
    have hle : ((C * 100 / F : Nat) : Int) ≤ ((C * 100 : Nat) : Int) := Int.ofNat_le.mpr hq
    have hne' : le16_to_cpu (member16 fg_static_data (read_sdat battery io_static).data
        "capacity_full") ≠ 0 := by rw [hF]; exact hne
    have hout := capacity_out battery val io_static io_dynamic hne'
    rw [hC, hF] at hout
    refine ⟨?_, by omega, by omega, hout, h0, ?_⟩
    · unfold int_mul
      rw [wrap_int_eq_self] <;> omega
    · push_cast at hle
      omega

/-- C18, at the sample records: voltage 12000, capacity-now 50, current bytes `FF FF`,
design voltage 10000, capacity-full 100. -/
theorem readings_fit_int_witness :
    be16_to_cpu (member16 fg_dynamic_data (read_ddat sample_battery
        (io_ok sample_dynamic)).data "voltage_now") = 12000
    ∧ be16_to_cpu (member16 fg_dynamic_data (read_ddat sample_battery
        (io_ok sample_dynamic)).data "capacity_now") = 50
    ∧ be16_to_cpu (member16 fg_dynamic_data (read_ddat sample_battery
        (io_ok sample_dynamic)).data "current_now") = 65535
    ∧ le16_to_cpu (member16 fg_static_data (read_sdat sample_battery
        (io_ok sample_static)).data "voltage_design") = 10000
    ∧ le16_to_cpu (member16 fg_static_data (read_sdat sample_battery
        (io_ok sample_static)).data "capacity_full") = 100
    ∧ (aspire_battery_get_property sample_battery POWER_SUPPLY_PROP_VOLTAGE_NOW 0
        (io_ok sample_static) (io_ok sample_dynamic)).out = some ⟨0, 12000000⟩
    ∧ (aspire_battery_get_property sample_battery POWER_SUPPLY_PROP_CAPACITY 0
        (io_ok sample_static) (io_ok sample_dynamic)).out = some ⟨0, 50⟩ :=
  ⟨by decide, by decide, by decide, by decide, by decide,
   (readings_fit_int sample_battery 0 (io_ok sample_static) (io_ok sample_dynamic)
      12000 50 65535 10000 100 (by decide) (by decide) (by decide) (by decide)
      (by decide)).1.1.trans (by decide),
   ((readings_fit_int sample_battery 0 (io_ok sample_static) (io_ok sample_dynamic)
      12000 50 65535 10000 100 (by decide) (by decide) (by decide) (by decide)
      (by decide)).2.2.2.2.2 (by decide)).2.2.2.1.trans (by decide)⟩

/-- C19: when the capacity-full value `F = f0 + 256 * f1` is not zero and the
capacity-now value `N = 256 * n0 + n1` is at most `F`, the capacity query returns 0
with a reading between 0 and 100, and the reading is 100 exactly when `N = F`. The
reading is not clamped: `N = 65535` with `F = 1` reads 6553500. -/
theorem capacity_percent_range (battery : aspire_battery) (val : Int)
    (io_static io_dynamic : kernel_io) (f0 f1 n0 n1 : u8)
    (hF : member16 fg_static_data (read_sdat battery io_static).data "capacity_full"
      = (f0, f1))
    (hN : member16 fg_dynamic_data (read_ddat battery io_dynamic).data "capacity_now"
      = (n0, n1))
    (hne : f0.val + 256 * f1.val ≠ 0)
    (hle : 256 * n0.val + n1.val ≤ f0.val + 256 * f1.val) :
    (∃ v : Int,
        (aspire_battery_get_property battery POWER_SUPPLY_PROP_CAPACITY val
          io_static io_dynamic).out = some ⟨0, v⟩
        ∧ 0 ≤ v ∧ v ≤ 100
        ∧ (v = 100 ↔ 256 * n0.val + n1.val = f0.val + 256 * f1.val))
    ∧ (aspire_battery_get_property sample_battery POWER_SUPPLY_PROP_CAPACITY 0
        (io_ok (static_record (0, 0) (0x01, 0x00)))
        (io_ok (dynamic_record 0 (0xFF, 0xFF) (0, 0) (0, 0)))).out
      = some ⟨0, 6553500⟩ := by
  refine ⟨?_, by decide⟩
  have hne' : le16_to_cpu (member16 fg_static_data (read_sdat battery io_static).data
      "capacity_full") ≠ 0 := by rw [hF]; exact hne
  have hout := capacity_out battery val io_static io_dynamic hne'
  rw [hF, hN] at hout
  simp only [le16_to_cpu, be16_to_cpu] at hout
  have hpos : 0 < f0.val + 256 * f1.val := Nat.pos_of_ne_zero hne
  have hub : (256 * n0.val + n1.val) * 100 / (f0.val + 256 * f1.val) ≤ 100 := by
    apply Nat.div_le_of_le_mul
    rw [Nat.mul_comm (f0.val + 256 * f1.val) 100, Nat.mul_comm _ 100]
    exact Nat.mul_le_mul_left 100 hle
  have hiff : (256 * n0.val + n1.val) * 100 / (f0.val + 256 * f1.val) = 100
      ↔ 256 * n0.val + n1.val = f0.val + 256 * f1.val := by
    constructor
    · intro h
      have h100 : 100 ≤ (256 * n0.val + n1.val) * 100 / (f0.val + 256 * f1.val) := by
        rw [h]
      rw [Nat.le_div_iff_mul_le hpos] at h100
      omega
    · intro h
      rw [h]
      exact Nat.mul_div_cancel_left 100 hpos
  refine ⟨_, hout, Int.ofNat_nonneg _, by exact_mod_cast hub, ?_⟩
  constructor
  · intro h
    exact hiff.mp (by exact_mod_cast h)
  · intro h
    exact_mod_cast hiff.mpr h

/-- C19, at capacity-now 50 and capacity-full 100. -/
theorem capacity_percent_range_witness :
    member16 fg_static_data (read_sdat sample_battery (io_ok sample_static)).data
        "capacity_full" = (0x64, 0x00)
    ∧ member16 fg_dynamic_data (read_ddat sample_battery (io_ok sample_dynamic)).data
        "capacity_now" = (0x00, 0x32)
    ∧ ∃ v : Int,
        (aspire_battery_get_property sample_battery POWER_SUPPLY_PROP_CAPACITY 0
          (io_ok sample_static) (io_ok sample_dynamic)).out = some ⟨0, v⟩
        ∧ 0 ≤ v ∧ v ≤ 100
        ∧ (v = 100 ↔ 256 * (0x00 : u8).val + (0x32 : u8).val
            = (0x64 : u8).val + 256 * (0x00 : u8).val) :=
  ⟨by decide, by decide,
   (capacity_percent_range sample_battery 0 (io_ok sample_static) (io_ok sample_dynamic)
      0x64 0x00 0x00 0x32 (by decide) (by decide) (by decide) (by decide)).1⟩

end AspireEcBattery
